import Mathlib

/-!
# ocserv VPN worker: `src/worker-vpn.c`

A shallow embedding of the per-connection VPN worker: the CSTP/DTLS framing
codec (`parse_cstp_data`, `parse_dtls_data`, `parse_data` and the frame
emitting parts of `connect_handler`), the MTU controller (`mtu_set`,
`mtu_not_ok`, `mtu_ok`), the MTU negotiation of `connect_handler`, the
HTTP phase of `vpn_server` and the parser callbacks `url_cb` and `header_value_cb`.

Conventions.
* An octet is a `Fin 256`; a buffer of `n` valid bytes is a `List Byte` of length `n`.
* `unsigned` values are natural numbers below `UINT_RANGE`; every `unsigned`
  addition or subtraction of the source is written with an explicit `% UINT_RANGE`.
* Calls that leave the process (TLS sends, tun writes, messages to the main
  process, log lines) are recorded, in program order, as a list of `Effect`s.
* Results of calls into the outside world (return codes, the clock) are parameters.
-/

namespace Ocserv

/-! ## Data model -/

/-- An octet (`uint8_t`). -/
abbrev Byte := Fin 256

/-- Conversion of a C integer value to `uint8_t`: reduction modulo 256. -/
def to_u8 (x : Nat) : Byte := ⟨x % 256, Nat.mod_lt x (by decide)⟩

/-- Number of values of the C type `unsigned int` (32 bits). -/
def UINT_RANGE : Nat := 4294967296

/-- Number of values of the C type `size_t` (64 bits). -/
def SIZE_RANGE : Nat := 18446744073709551616

/-- Conversion of a value to the C type `int` (32 bits): values from 2^31 on come out
negative, as when an `unsigned` or an `ssize_t` is assigned to an `int`. -/
def to_int (x : Nat) : Int :=
  if x % UINT_RANGE < 2147483648 then ((x % UINT_RANGE : Nat) : Int)
  else ((x % UINT_RANGE : Nat) : Int) - (UINT_RANGE : Int)

/-- Conversion of an `int` to the C type `size_t`: reduction modulo 2^64. -/
def to_size_t (i : Int) : Nat := (i % (SIZE_RANGE : Int)).toNat

/-- Modelled from the spec: the macro `MIN` comes from a header that is not among the
sources; it is the usual two-argument minimum `((x)<(y)?(x):(y))`. -/
def MIN (x y : Nat) : Nat := if x < y then x else y

/-- Modelled from the spec: the `AC_PKT_*` packet type constants of `vpn.h`, which is
not among the sources. The spec fixes them as one-byte packet types (byte 6 of a CSTP
frame, byte 0 of a DTLS frame); their values are left as parameters. -/
structure ac_pkt where
  AC_PKT_DATA : Byte
  AC_PKT_DPD_OUT : Byte
  AC_PKT_DPD_RESP : Byte
  AC_PKT_DISCONN : Byte
  AC_PKT_KEEPALIVE : Byte
  AC_PKT_TERM_SERVER : Byte

/-- Modelled from the spec: the UDP channel states of `worker.h` (not among the
sources), in the order the spec lists them. -/
inductive udp_state_t where
  | UP_DISABLED
  | UP_WAIT_FD
  | UP_SETUP
  | UP_HANDSHAKE
  | UP_INACTIVE
  | UP_ACTIVE
  deriving DecidableEq

/-- The two record layers a packet can travel on: `ws->session` and `ws->dtls_session`. -/
inductive Chan where
  | tls
  | dtls
  deriving DecidableEq

/-- Modelled from the spec: `struct worker_st` is declared in `worker.h`, which is not among
the sources; these are the fields the modelled functions read or write. The two MTU bounds
are `unsigned` values (the source prints them with `%u`), `last_dpd` is a `time_t`. -/
structure worker_st where
  udp_state : udp_state_t
  last_good_mtu : Nat
  last_bad_mtu : Nat
  last_dpd : Int
  deriving DecidableEq

/-- The `oclog` lines of the modelled functions, one constructor per call site. -/
inductive LogMsg where
  | received_dpd_response
  | received_keepalive
  | received_dpd_sending_response
  | could_not_send_tls_data
  | received_bye_packet
  | writing_to_tun
  | could_not_write_to_tun
  | received_unknown_packet
  | cant_read_cstp_header
  | cant_recognise_cstp_header
  | unexpected_cstp_length
  | cant_read_dtls_header
  | mtu_too_large_switching
  | sending_disconnect_dtls
  | sending_disconnect_tls
  | tun_corrupt_data
  | tun_returned_zero
  | sending_bytes
  | could_not_calculate_mtu
  | retrying_tls
  | peer_cstp_mtu
  | peer_dtls_mtu
  | max_http_requests_reached
  | error_receiving_client_data
  | error_parsing_http_request
  | unexpected_url
  | unexpected_post_url
  | unexpected_method
  deriving DecidableEq

/-- What the worker does to the outside world, in program order. -/
inductive Effect where
  | oclog (msg : LogMsg)
  | tls_send (ts : Chan) (data : List Byte)
  | tls_puts_404
  | tls_printf_cstp_mtu (mtu : Nat)
  | tls_printf_dtls_mtu (mtu : Nat)
  | tls_close
  | tun_read (count : Nat)
  | tun_write (data : List Byte)
  | send_tun_mtu (mtu : Nat)
  | gnutls_dtls_set_data_mtu (mtu : Nat)
  deriving DecidableEq

/-- Results of the calls `parse_data` makes into the outside world. -/
structure Env where
  tls_send_ret : Int
  tun_write_ret : Int
  now : Int

/-- Result of a function returning `int` that may update the worker state. -/
structure Ret where
  ret : Int
  ws : worker_st
  effects : List Effect
  deriving DecidableEq

/-! ## Framing codec (`parse_data`, `parse_cstp_data`, `parse_dtls_data`) -/

/-- The string literal sent as DPD response on the TLS channel,
`"STF\x01\x00\x00\x04\x00"`, of which `tls_send` is given the first 8 bytes. -/
def dpd_resp_literal : List Byte := [83, 84, 70, 1, 0, 0, 4, 0]

/-- The common packet handler `parse_data(ws, ts, head, buf, buf_size)`. The `switch`
is written as a chain of comparisons in the order of its `case` labels. -/
def parse_data (K : ac_pkt) (env : Env) (ws : worker_st) (ts : Chan) (head : Byte)
    (buf : List Byte) : Ret :=
  if head = K.AC_PKT_DPD_RESP then
    ⟨head.val, ws, [Effect.oclog LogMsg.received_dpd_response]⟩
  else if head = K.AC_PKT_KEEPALIVE then
    ⟨head.val, ws, [Effect.oclog LogMsg.received_keepalive]⟩
  else if head = K.AC_PKT_DPD_OUT then
    let sent : Effect :=
      if ts = Chan.tls then Effect.tls_send ts (dpd_resp_literal.take 8)
      else Effect.tls_send ts [4]
    if env.tls_send_ret < 0 then
      ⟨-1, ws, [Effect.oclog LogMsg.received_dpd_sending_response, sent,
        Effect.oclog LogMsg.could_not_send_tls_data]⟩
    else
      ⟨head.val, { ws with last_dpd := env.now },
        [Effect.oclog LogMsg.received_dpd_sending_response, sent]⟩
  else if head = K.AC_PKT_DISCONN then
    ⟨head.val, ws, [Effect.oclog LogMsg.received_bye_packet]⟩
  else if head = K.AC_PKT_DATA then
    if env.tun_write_ret = -1 then
      ⟨-1, ws, [Effect.oclog LogMsg.writing_to_tun, Effect.tun_write buf,
        Effect.oclog LogMsg.could_not_write_to_tun]⟩
    else
      ⟨head.val, ws, [Effect.oclog LogMsg.writing_to_tun, Effect.tun_write buf]⟩
  else
    ⟨head.val, ws, [Effect.oclog LogMsg.received_unknown_packet]⟩

/-- The function `parse_cstp_data(ws, buf, buf_size)`; `buf_size` is `buf.length`, and
`buf[i]` is read as `buf.getD i 0` (only after the length check). -/
def parse_cstp_data (K : ac_pkt) (env : Env) (ws : worker_st) (buf : List Byte) : Ret :=
  if buf.length < 8 then
    ⟨-1, ws, [Effect.oclog LogMsg.cant_read_cstp_header]⟩
  else if buf.getD 0 0 ≠ 83 ∨ buf.getD 1 0 ≠ 84 ∨ buf.getD 2 0 ≠ 70 ∨ buf.getD 3 0 ≠ 1
      ∨ buf.getD 7 0 ≠ 0 then
    ⟨-1, ws, [Effect.oclog LogMsg.cant_recognise_cstp_header]⟩
  else
    let pktlen : Nat := ((buf.getD 4 0).val <<< 8) + (buf.getD 5 0).val
    if buf.length ≠ 8 + pktlen then
      ⟨-1, ws, [Effect.oclog LogMsg.unexpected_cstp_length]⟩
    else
      parse_data K env ws Chan.tls (buf.getD 6 0) ((buf.drop 8).take pktlen)

/-- The function `parse_dtls_data(ws, buf, buf_size)`. -/
def parse_dtls_data (K : ac_pkt) (env : Env) (ws : worker_st) (buf : List Byte) : Ret :=
  if buf.length < 1 then
    ⟨-1, ws, [Effect.oclog LogMsg.cant_read_dtls_header]⟩
  else
    parse_data K env ws Chan.dtls (buf.getD 0 0) ((buf.drop 1).take (buf.length - 1))

/-! ## MTU controller (`mtu_not_ok`, `mtu_set`, `mtu_ok`) -/

/-- Result of `mtu_not_ok`: the return code, the worker state, the value left in `*mtu`. -/
structure MtuRet where
  ret : Int
  ws : worker_st
  mtu : Nat
  effects : List Effect
  deriving DecidableEq

/-- Result of the `void` function `mtu_ok`: the worker state and the value left in `*mtu`. -/
structure MtuOut where
  ws : worker_st
  mtu : Nat
  effects : List Effect
  deriving DecidableEq

/-- The function `mtu_not_ok(ws, &mtu)`: records `*mtu` as bad, halves it, and gives up
with -1 when the half is below 128. -/
def mtu_not_ok (ws : worker_st) (mtu : Nat) : MtuRet :=
  let ws1 : worker_st := { ws with last_bad_mtu := mtu }
  let ws2 : worker_st := { ws1 with last_good_mtu := mtu / 2 }
  if ws2.last_good_mtu < 128 then
    ⟨-1, ws2, mtu, []⟩
  else
    ⟨0, ws2, ws2.last_good_mtu,
      [Effect.gnutls_dtls_set_data_mtu ws2.last_good_mtu,
       Effect.oclog LogMsg.mtu_too_large_switching,
       Effect.send_tun_mtu ws2.last_good_mtu]⟩

/-- The function `mtu_set(ws, max_mtu)`. -/
def mtu_set (ws : worker_st) (max_mtu : Nat) : worker_st :=
  let ws1 : worker_st := if ws.last_good_mtu = 0 then { ws with last_good_mtu := max_mtu } else ws
  if ws1.last_bad_mtu = 0 then { ws1 with last_bad_mtu := max_mtu } else ws1

/-- The function `mtu_ok(ws, sent, &mtu)`. The sum of the two bounds and `(*mtu)+1` are
`unsigned` expressions, hence taken modulo `UINT_RANGE`; the half of the sum is below 2^31,
so passing through `int c` keeps it. -/
def mtu_ok (ws : worker_st) (sent mtu : Nat) : MtuOut :=
  if sent < mtu ∨ ws.last_bad_mtu = (mtu + 1) % UINT_RANGE then
    ⟨ws, mtu, []⟩
  else
    let c : Nat := ((ws.last_good_mtu + ws.last_bad_mtu) % UINT_RANGE) / 2
    ⟨ws, c, [Effect.gnutls_dtls_set_data_mtu c, Effect.send_tun_mtu c]⟩

/-! ## `connect_handler`: MTU negotiation (lines 612-665) -/

/-- Size of the local array `uint8_t buffer[4*1024]` of `connect_handler`. -/
def sizeof_buffer : Nat := 4 * 1024

/-- The MTU values `connect_handler` settles on. -/
structure Negotiated where
  tls_mtu : Nat
  dtls_mtu : Nat
  effects : List Effect
  deriving DecidableEq

/-- The value `connect_handler` leaves in `tls_mtu` (lines 612-617). `vinfo.mtu` and
`req->cstp_mtu` are `unsigned`, so `vinfo.mtu - 8` is taken modulo `UINT_RANGE`. -/
def connect_handler_tls_mtu (vinfo_mtu cstp_mtu : Nat) : Nat :=
  let tls_mtu0 : Nat := (vinfo_mtu + UINT_RANGE - 8) % UINT_RANGE
  let tls_mtu1 : Nat := if cstp_mtu > 0 then MIN tls_mtu0 cstp_mtu else tls_mtu0
  MIN (sizeof_buffer - 8) tls_mtu1

/-- The value `connect_handler` leaves in `dtls_mtu` (lines 622-660): 0 when UDP is
disabled, since the variable is initialised to 0 and the block is skipped. -/
def connect_handler_dtls_mtu (vinfo_mtu req_dtls_mtu : Nat) (af_inet : Bool)
    (udp_state : udp_state_t) : Nat :=
  if udp_state ≠ udp_state_t.UP_DISABLED then
    let mtu_overhead : Nat := if af_inet then 20 + 1 else 40 + 1
    let dtls_mtu0 : Nat := (vinfo_mtu + UINT_RANGE - mtu_overhead) % UINT_RANGE
    let dtls_mtu1 : Nat := if req_dtls_mtu > 0 then MIN req_dtls_mtu dtls_mtu0 else dtls_mtu0
    MIN (sizeof_buffer - 1) dtls_mtu1
  else 0

/-- Lines 612-665 of `connect_handler`: both MTU values, the two MTU header lines and
the first `send_tun_mtu`. -/
def connect_handler_mtu (vinfo_mtu cstp_mtu req_dtls_mtu : Nat) (af_inet : Bool)
    (udp_state : udp_state_t) : Negotiated :=
  let tls_mtu := connect_handler_tls_mtu vinfo_mtu cstp_mtu
  let e1 : List Effect :=
    (if cstp_mtu > 0 then [Effect.oclog LogMsg.peer_cstp_mtu] else [])
      ++ [Effect.tls_printf_cstp_mtu tls_mtu]
  let dtls_mtu := connect_handler_dtls_mtu vinfo_mtu req_dtls_mtu af_inet udp_state
  let e2 : List Effect :=
    if udp_state ≠ udp_state_t.UP_DISABLED then
      (if req_dtls_mtu > 0 then [Effect.oclog LogMsg.peer_dtls_mtu] else [])
        ++ [Effect.tls_printf_dtls_mtu dtls_mtu]
    else []
  let e3 : List Effect :=
    if dtls_mtu = 0 then [Effect.send_tun_mtu tls_mtu]
    else [Effect.send_tun_mtu (MIN dtls_mtu tls_mtu)]
  ⟨tls_mtu, dtls_mtu, e1 ++ e2 ++ e3⟩

/-! ## `connect_handler`: the frame emitting parts of the main loop -/

/-- How one section of the main loop is left. -/
inductive LoopNext where
  | proceed
  | continue_loop
  | goto_exit
  | exit_process
  deriving DecidableEq

/-- State after a section of the main loop: worker state, the local `dtls_mtu`. -/
structure LoopStep where
  ws : worker_st
  dtls_mtu : Nat
  effects : List Effect
  next : LoopNext
  deriving DecidableEq

/-- Modelled from the spec: the macro `GNUTLS_FATAL_ERR` of `tlslib.h` (not among the
sources) ends the process when the code is negative and `gnutls_error_is_fatal` says so;
`fatal` stands for `gnutls_error_is_fatal(x) != 0`. -/
def GNUTLS_FATAL_ERR (fatal : Int → Bool) (x : Int) : Bool := decide (x < 0) && fatal x

/-- Lines 694-718 of `connect_handler`: the shutdown messages sent once `terminate` is set. -/
def connect_handler_terminate (K : ac_pkt) (fatal : Int → Bool) (ws : worker_st)
    (dtls_mtu : Nat) (dtls_ret tls_ret : Int) : LoopStep :=
  let e1 : List Effect :=
    if ws.udp_state = udp_state_t.UP_ACTIVE then
      [Effect.oclog LogMsg.sending_disconnect_dtls, Effect.tls_send Chan.dtls [K.AC_PKT_TERM_SERVER]]
    else []
  if ws.udp_state = udp_state_t.UP_ACTIVE ∧ GNUTLS_FATAL_ERR fatal dtls_ret = true then
    ⟨ws, dtls_mtu, e1, LoopNext.exit_process⟩
  else
    let buffer : List Byte := [83, 84, 70, 1, 0, 0, K.AC_PKT_TERM_SERVER, 0]
    let e2 : List Effect :=
      e1 ++ [Effect.oclog LogMsg.sending_disconnect_tls, Effect.tls_send Chan.tls (buffer.take 8)]
    if GNUTLS_FATAL_ERR fatal tls_ret = true then ⟨ws, dtls_mtu, e2, LoopNext.exit_process⟩
    else ⟨ws, dtls_mtu, e2, LoopNext.goto_exit⟩

/-- What the tun device has for `read(ws->tun_fd, buffer + 8, l)`: an error (the call
returns -1) or a packet of any length, of which the call takes at most the count it was
given. -/
inductive tun_read_result where
  | error
  | data (dev : List Byte)

/-- Lines 745-751: the count handed to `read`. The `unsigned` MTU goes through the
variable `int l` and from there to the `size_t` parameter of `read`. -/
def tun_read_count (ws : worker_st) (dtls_mtu tls_mtu : Nat) : Nat :=
  to_size_t (to_int (if ws.udp_state = udp_state_t.UP_ACTIVE then dtls_mtu else tls_mtu))

/-- The bytes `read` leaves at `buffer + 8`: the packet of the device cut to the count. -/
def tun_read_stored (count : Nat) (rd : tun_read_result) : List Byte :=
  match rd with
  | tun_read_result.error => []
  | tun_read_result.data dev => dev.take count

/-- The value `l = read(...)` leaves in the variable `int l`: -1 on error, otherwise the
number of bytes stored, converted to `int`. -/
def tun_read_ret (count : Nat) (rd : tun_read_result) : Int :=
  match rd with
  | tun_read_result.error => -1
  | tun_read_result.data dev => to_int (dev.take count).length

/-- Lines 769-787: the attempt to send the packet on the DTLS channel. The last
component is `tls_retry`; `none` means that `GNUTLS_FATAL_ERR` ended the process. The
gnutls error code `GNUTLS_E_LARGE_PACKET` (a constant of `gnutls.h`) is a parameter. -/
def connect_handler_tun_dtls (K : ac_pkt) (fatal : Int → Bool) (GNUTLS_E_LARGE_PACKET : Int)
    (ws : worker_st) (dtls_mtu : Nat) (pkt : List Byte) (dtls_ret : Int) :
    List Effect × Option (worker_st × Nat × Bool) :=
  if ws.udp_state = udp_state_t.UP_ACTIVE then
    let e1 : List Effect := [Effect.tls_send Chan.dtls (K.AC_PKT_DATA :: pkt)]
    if GNUTLS_FATAL_ERR fatal dtls_ret = true then (e1, none)
    else if dtls_ret = GNUTLS_E_LARGE_PACKET then
      let r := mtu_not_ok ws dtls_mtu
      if r.ret < 0 then
        (e1 ++ r.effects ++ [Effect.oclog LogMsg.could_not_calculate_mtu,
            Effect.oclog LogMsg.retrying_tls],
          some ({ r.ws with udp_state := udp_state_t.UP_DISABLED }, r.mtu, true))
      else
        (e1 ++ r.effects ++ [Effect.oclog LogMsg.retrying_tls], some (r.ws, r.mtu, true))
    else if dtls_ret > 0 then
      let r := mtu_ok ws dtls_ret.toNat dtls_mtu
      (e1 ++ r.effects, some (r.ws, r.mtu, false))
    else (e1, some (ws, dtls_mtu, false))
  else ([], some (ws, dtls_mtu, false))

/-- Lines 790-799: the CSTP frame built around a packet of `l = pkt.length` bytes that
sits at offset 8 of `buffer`; `tls_send` is given its first `l + 8` bytes. -/
def connect_handler_tun_frame (K : ac_pkt) (pkt : List Byte) : List Byte :=
  let l : Nat := pkt.length
  let buffer : List Byte :=
    [83, 84, 70, 1, to_u8 (l >>> 8), to_u8 (l &&& 0xff), K.AC_PKT_DATA, 0] ++ pkt
  buffer.take (l + 8)

/-- Lines 743-803 of `connect_handler`: the tun device is readable. `errno_transient`
tells whether `errno` is `EAGAIN` or `EINTR` when the code looks at it. After the tests
`l < 0` and `l == 0` the packet is made of the `l` bytes at `buffer + 8`. -/
def connect_handler_tun (K : ac_pkt) (fatal : Int → Bool) (GNUTLS_E_LARGE_PACKET : Int)
    (ws : worker_st) (dtls_mtu tls_mtu : Nat) (rd : tun_read_result) (errno_transient : Bool)
    (dtls_ret tls_ret : Int) : LoopStep :=
  let count : Nat := tun_read_count ws dtls_mtu tls_mtu
  let e0 : List Effect := [Effect.tun_read count]
  let l : Int := tun_read_ret count rd
  if l < 0 then
    if errno_transient then ⟨ws, dtls_mtu, e0, LoopNext.continue_loop⟩
    else ⟨ws, dtls_mtu, e0 ++ [Effect.oclog LogMsg.tun_corrupt_data], LoopNext.goto_exit⟩
  else if l = 0 then
    ⟨ws, dtls_mtu, e0 ++ [Effect.oclog LogMsg.tun_returned_zero], LoopNext.goto_exit⟩
  else
    let pkt : List Byte := (tun_read_stored count rd).take l.toNat
    let e1 : List Effect := e0 ++ [Effect.oclog LogMsg.sending_bytes]
    match connect_handler_tun_dtls K fatal GNUTLS_E_LARGE_PACKET ws dtls_mtu pkt dtls_ret with
    | (e2, none) => ⟨ws, dtls_mtu, e1 ++ e2, LoopNext.exit_process⟩
    | (e2, some (ws1, dtls_mtu1, tls_retry)) =>
      if ws1.udp_state ≠ udp_state_t.UP_ACTIVE ∨ tls_retry = true then
        let e3 : List Effect :=
          e1 ++ e2 ++ [Effect.tls_send Chan.tls (connect_handler_tun_frame K pkt)]
        if GNUTLS_FATAL_ERR fatal tls_ret = true then
          ⟨ws1, dtls_mtu1, e3, LoopNext.exit_process⟩
        else ⟨ws1, dtls_mtu1, e3, LoopNext.proceed⟩
      else ⟨ws1, dtls_mtu1, e1 ++ e2, LoopNext.proceed⟩

/-! ## HTTP phase of `vpn_server` (lines 315, 368-441) -/

/-- The constant `MAX_HTTP_REQUESTS`: HTTP requests prior to disconnection. -/
def MAX_HTTP_REQUESTS : Int := 8

/-- The request methods `vpn_server` tells apart. -/
inductive http_method where
  | HTTP_GET
  | HTTP_POST
  | HTTP_CONNECT
  | HTTP_OTHER
  deriving DecidableEq

/-- The handlers named in the table `known_urls`. -/
inductive url_handler_fn where
  | get_auth_handler
  | post_new_auth_handler
  | post_old_auth_handler
  deriving DecidableEq

/-- One row of `known_urls`. -/
structure known_urls_st where
  url : String
  get_handler : url_handler_fn
  post_handler : url_handler_fn

/-- The table `known_urls`, without its terminating `NULL` row. -/
def known_urls : List known_urls_st :=
  [ ⟨ "/", url_handler_fn.get_auth_handler, url_handler_fn.post_new_auth_handler⟩,
    ⟨ "/auth", url_handler_fn.get_auth_handler, url_handler_fn.post_old_auth_handler⟩ ]

/-- The function `get_url_handler(url)`; `none` is `NULL`. -/
def get_url_handler (url : String) : Option url_handler_fn :=
  match known_urls.find? (fun p => p.url == url) with
  | some p => some p.get_handler
  | none => none

/-- The function `post_url_handler(url)`; `none` is `NULL`. -/
def post_url_handler (url : String) : Option url_handler_fn :=
  match known_urls.find? (fun p => p.url == url) with
  | some p => some p.post_handler
  | none => none

/-- How a loop that receives and parses ends: `tls_recv` failed, `http_parser_execute`
returned 0, or the awaited flag (`headers_complete`, `message_complete`) got set. -/
inductive read_outcome where
  | recv_error
  | parse_error
  | complete
  deriving DecidableEq

/-- What the outside world delivers during one pass from `restart:`: how the two reading
loops end, what the parser stored, and the code the handler returns (`none` when the
handler ends the process itself). -/
structure http_request where
  header : read_outcome
  method : http_method
  http_major : Nat
  http_minor : Nat
  url : String
  body : read_outcome
  handler_ret : Option Int

/-- Where control goes after one request. -/
inductive http_next where
  | goto_restart
  | goto_finish
  | exit_process
  deriving DecidableEq

/-- The test after a handler returned: `ret == 0 && (http_major != 1 || http_minor != 0)`. -/
def keep_alive (ret : Int) (http_major http_minor : Nat) : Bool :=
  decide (ret = 0) && (decide (http_major ≠ 1) || decide (http_minor ≠ 0))

/-- What follows a call `ret = fn(ws)` in `vpn_server`. -/
def after_handler (r : http_request) : http_next × List Effect :=
  match r.handler_ret with
  | none => (http_next.exit_process, [])
  | some ret =>
    if keep_alive ret r.http_major r.http_minor = true then (http_next.goto_restart, [])
    else (http_next.goto_finish, [])

/-- Lines 374-437 of `vpn_server`: one request, from `http_parser_init` to the jump. -/
def vpn_server_request (r : http_request) : http_next × List Effect :=
  match r.header with
  | read_outcome.recv_error =>
    (http_next.exit_process, [Effect.oclog LogMsg.error_receiving_client_data])
  | read_outcome.parse_error =>
    (http_next.exit_process, [Effect.oclog LogMsg.error_parsing_http_request])
  | read_outcome.complete =>
    match r.method with
    | http_method.HTTP_GET =>
      match get_url_handler r.url with
      | none => (http_next.goto_finish, [Effect.oclog LogMsg.unexpected_url, Effect.tls_puts_404])
      | some _ => after_handler r
    | http_method.HTTP_POST =>
      match r.body with
      | read_outcome.recv_error => (http_next.exit_process, [])
      | read_outcome.parse_error =>
        (http_next.exit_process, [Effect.oclog LogMsg.error_parsing_http_request])
      | read_outcome.complete =>
        match post_url_handler r.url with
        | none =>
          (http_next.goto_finish, [Effect.oclog LogMsg.unexpected_post_url, Effect.tls_puts_404])
        | some _ => after_handler r
    | http_method.HTTP_CONNECT => after_handler r
    | http_method.HTTP_OTHER =>
      (http_next.goto_finish, [Effect.oclog LogMsg.unexpected_method, Effect.tls_puts_404])

/-- How the HTTP phase ended. -/
inductive http_end where
  | budget_exhausted
  | exited
  | finished
  deriving DecidableEq

/-- A run of the HTTP phase: `passes` counts the arrivals at `restart:` that got past the
budget check, `served` the requests taken from the client, `counters` lists the value of
`requests_left` after each arrival at `restart:`. -/
structure http_run where
  passes : Nat
  served : Nat
  counters : List Int
  effects : List Effect
  ending : http_end
  deriving DecidableEq

/-- The loop of `vpn_server` from the label `restart:` on, with `requests_left` as it is
on arrival and the requests the client still sends. When the client sends nothing more,
`tls_recv` fails and the worker exits. -/
def vpn_server_restart (requests_left : Int) (reqs : List http_request) : http_run :=
  match reqs with
  | [] =>
    if requests_left ≤ 0 then
      ⟨0, 0, [requests_left - 1], [Effect.oclog LogMsg.max_http_requests_reached],
        http_end.budget_exhausted⟩
    else
      ⟨1, 0, [requests_left - 1], [Effect.oclog LogMsg.error_receiving_client_data],
        http_end.exited⟩
  | r :: rest =>
    if requests_left ≤ 0 then
      ⟨0, 0, [requests_left - 1], [Effect.oclog LogMsg.max_http_requests_reached],
        http_end.budget_exhausted⟩
    else
      match vpn_server_request r with
      | (http_next.goto_restart, e) =>
        let t := vpn_server_restart (requests_left - 1) rest
        ⟨t.passes + 1, t.served + 1, (requests_left - 1) :: t.counters, e ++ t.effects, t.ending⟩
      | (http_next.goto_finish, e) =>
        ⟨1, 1, [requests_left - 1], e ++ [Effect.tls_close], http_end.finished⟩
      | (http_next.exit_process, e) =>
        ⟨1, 1, [requests_left - 1], e, http_end.exited⟩

/-- The HTTP phase of `vpn_server`: `requests_left` starts at `MAX_HTTP_REQUESTS`. -/
def vpn_server (reqs : List http_request) : http_run :=
  vpn_server_restart MAX_HTTP_REQUESTS reqs

/-! ## Runs of the MTU controller -/

/-- The two calls the main loop makes on the controller. -/
inductive mtu_event where
  | not_ok
  | ok (sent : Nat)
  deriving DecidableEq

/-- A controller together with the local `dtls_mtu` of `connect_handler`; `disabled`
records that some `mtu_not_ok` returned -1, `published` what went to `send_tun_mtu`. -/
structure mtu_ctl where
  ws : worker_st
  dtls_mtu : Nat
  disabled : Bool
  published : List Nat
  deriving DecidableEq

/-- The values handed to `send_tun_mtu` among some effects. -/
def published_mtus : List Effect → List Nat
  | [] => []
  | Effect.send_tun_mtu v :: es => v :: published_mtus es
  | _ :: es => published_mtus es

/-- One call of `mtu_not_ok(ws, &dtls_mtu)` or `mtu_ok(ws, sent, &dtls_mtu)`. -/
def mtu_step (s : mtu_ctl) (ev : mtu_event) : mtu_ctl :=
  match ev with
  | mtu_event.not_ok =>
    let r := mtu_not_ok s.ws s.dtls_mtu
    ⟨r.ws, r.mtu, s.disabled || decide (r.ret = -1), s.published ++ published_mtus r.effects⟩
  | mtu_event.ok sent =>
    let r := mtu_ok s.ws sent s.dtls_mtu
    ⟨r.ws, r.mtu, s.disabled, s.published ++ published_mtus r.effects⟩

/-- A worker state whose MTU bounds are still 0, as before the first `mtu_set`. -/
def ws_fresh (st : udp_state_t) : worker_st := ⟨st, 0, 0, 0⟩

/-- The controller after `mtu_set(ws, max)` with `dtls_mtu = max`. -/
def mtu_seed (max : Nat) : mtu_ctl :=
  ⟨mtu_set (ws_fresh udp_state_t.UP_ACTIVE) max, max, false, []⟩

/-- The controller after a sequence of calls. -/
def mtu_run (s : mtu_ctl) (evs : List mtu_event) : mtu_ctl := evs.foldl mtu_step s

/-! ## Predicates used to state the properties -/

/-- The big-endian 16-bit number made of two bytes. -/
def u16be (hi lo : Byte) : Nat := hi.val * 256 + lo.val

/-- A byte string is a well formed CSTP frame around a payload of `payload_len` bytes:
magic and version in bytes 0..3, reserved byte 7 zero, length field and total length
both agreeing with `payload_len`. -/
def cstp_well_formed (sent : List Byte) (payload_len : Nat) : Prop :=
  sent.getD 0 0 = 83 ∧ sent.getD 1 0 = 84 ∧ sent.getD 2 0 = 70 ∧ sent.getD 3 0 = 1 ∧
  sent.getD 7 0 = 0 ∧ u16be (sent.getD 4 0) (sent.getD 5 0) = payload_len ∧
  sent.length = 8 + payload_len

instance (sent : List Byte) (payload_len : Nat) : Decidable (cstp_well_formed sent payload_len) := by
  unfold cstp_well_formed
  infer_instance

/-- A result of `parse_cstp_data` that is one of its three framing errors: -1, the worker
state untouched, and nothing done but the log line of the failed check. -/
def framing_error (ws : worker_st) (r : Ret) : Prop :=
  r.ret = -1 ∧ r.ws = ws ∧
  (r.effects = [Effect.oclog LogMsg.cant_read_cstp_header] ∨
   r.effects = [Effect.oclog LogMsg.cant_recognise_cstp_header] ∨
   r.effects = [Effect.oclog LogMsg.unexpected_cstp_length])

instance (ws : worker_st) (r : Ret) : Decidable (framing_error ws r) := by
  unfold framing_error
  infer_instance

/-- The byte strings handed to `tls_send` on the TLS (CSTP) channel among some effects. -/
def cstp_sent : List Effect → List (List Byte)
  | [] => []
  | Effect.tls_send Chan.tls data :: es => data :: cstp_sent es
  | _ :: es => cstp_sent es

/-- The buffer is too short to hold a CSTP header (`TOO_SHORT`). -/
def cstp_too_short (buf : List Byte) : Prop := buf.length < 8

/-- Bytes 0..3 are not `S`, `T`, `F`, 0x01 or the reserved byte 7 is not 0 (`BAD_MAGIC`). -/
def cstp_bad_magic (buf : List Byte) : Prop :=
  buf.getD 0 0 ≠ 83 ∨ buf.getD 1 0 ≠ 84 ∨ buf.getD 2 0 ≠ 70 ∨ buf.getD 3 0 ≠ 1 ∨ buf.getD 7 0 ≠ 0

/-- The length claimed in bytes 4..5 is not the length available (`BAD_LENGTH`). -/
def cstp_bad_length (buf : List Byte) : Prop :=
  8 + u16be (buf.getD 4 0) (buf.getD 5 0) ≠ buf.length

/-- Packet types used in examples: `DATA` = 0 and `DPD_RESP` = 4 as in the spec. -/
def K_example : ac_pkt := ⟨0, 3, 4, 5, 7, 9⟩

/-- Outside world used in examples: sends and tun writes succeed. -/
def env_example : Env := ⟨8, 5, 1000⟩

instance (buf : List Byte) : Decidable (cstp_too_short buf) := by
  unfold cstp_too_short
  infer_instance

instance (buf : List Byte) : Decidable (cstp_bad_magic buf) := by
  unfold cstp_bad_magic
  infer_instance

instance (buf : List Byte) : Decidable (cstp_bad_length buf) := by
  unfold cstp_bad_length
  infer_instance

/-- The values advertised in the `X-CSTP-MTU` header among some effects. -/
def advertised_cstp_mtu : List Effect → List Nat
  | [] => []
  | Effect.tls_printf_cstp_mtu v :: es => v :: advertised_cstp_mtu es
  | _ :: es => advertised_cstp_mtu es

/-- The TLS MTU as the spec words it, over the integers:
`min(vinfo.mtu - 8, buffer_size - 8, req.cstp_mtu if > 0)` with `buffer_size` = 4096. -/
def tls_mtu_spec (vinfo_mtu cstp_mtu : Int) : Int :=
  if cstp_mtu > 0 then min (vinfo_mtu - 8) (min (4096 - 8) cstp_mtu)
  else min (vinfo_mtu - 8) (4096 - 8)

/-- The request reached a handler, which returned `ret`: the headers were read, and the
request is a GET for a known URL, a POST for a known URL whose body was read, or a CONNECT. -/
def dispatched (r : http_request) (ret : Int) : Prop :=
  r.header = read_outcome.complete ∧ r.handler_ret = some ret ∧
  ((r.method = http_method.HTTP_GET ∧ get_url_handler r.url ≠ none) ∨
   (r.method = http_method.HTTP_POST ∧ r.body = read_outcome.complete ∧
      post_url_handler r.url ≠ none) ∨
   r.method = http_method.HTTP_CONNECT)

instance (r : http_request) (ret : Int) : Decidable (dispatched r ret) := by
  unfold dispatched
  infer_instance

/-- The ordering `last_good_mtu ≤ dtls_mtu ≤ last_bad_mtu` of a controller. -/
def mtu_ordered (s : mtu_ctl) : Prop :=
  s.ws.last_good_mtu ≤ s.dtls_mtu ∧ s.dtls_mtu ≤ s.ws.last_bad_mtu

instance (s : mtu_ctl) : Decidable (mtu_ordered s) := by
  unfold mtu_ordered
  infer_instance

/-- A request used in examples: `GET / HTTP/1.1`, answered by a handler returning 0. -/
def keep_alive_get : http_request :=
  ⟨read_outcome.complete, http_method.HTTP_GET, 1, 1, "/", read_outcome.complete, some 0⟩

/-- A request used in examples: `GET / HTTP/2.0`, answered by a handler returning 0. -/
def http2_get : http_request :=
  ⟨read_outcome.complete, http_method.HTTP_GET, 2, 0, "/", read_outcome.complete, some 0⟩

/-! ## HTTP parser callbacks (`url_cb`, `header_value_cb`)

A `char` array of the request record is the list of the bytes found from its first byte
on. A store within the array keeps the length of the list; a store past the size of the
array lengthens the list, so that a list longer than the array tells that the store ran
past the end of the array. -/

/-- Modelled from the spec: the constant `COOKIE_SIZE` of an absent header; the spec gives
the cookie buffer as 32 bytes. -/
def COOKIE_SIZE : Nat := 32

/-- Modelled from the spec: the constant `TLS_MASTER_SIZE` of an absent header; the spec
gives the DTLS premaster as 48 bytes. -/
def TLS_MASTER_SIZE : Nat := 48

/-- Modelled from the spec: the two sizes the spec leaves open, both declared in headers
that are not among the sources: `sizeof(req->url)` (the spec says an implementation-chosen
limit) and the constant `MAX_HOSTNAME_SIZE`, which is also the size of `req->hostname`. -/
structure buf_sizes where
  sizeof_url : Nat
  MAX_HOSTNAME_SIZE : Nat

/-- Modelled from the spec: the `HEADER_*` constants of `worker.h` (not among the sources),
one per recognised header; `HEADER_NONE` is the value 0 stored for any other header. -/
inductive header_t where
  | HEADER_NONE
  | HEADER_COOKIE
  | HEADER_MASTER_SECRET
  | HEADER_HOSTNAME
  | HEADER_CSTP_MTU
  | HEADER_DTLS_MTU
  deriving DecidableEq

/-- Modelled from the spec: `struct req_data_st` is declared in `worker.h`, which is not
among the sources; these are the fields `url_cb` and `header_value_cb` read or write. -/
structure req_data_st where
  url : List Byte
  hostname : List Byte
  next_header : header_t
  cookie : List Byte
  cookie_set : Nat
  master_secret : List Byte
  master_secret_set : Nat
  cstp_mtu : Nat
  dtls_mtu : Nat
  deriving DecidableEq

/-- The assignment `buf[i] = v`. -/
def store (buf : List Byte) (i : Nat) (v : Byte) : List Byte :=
  buf.take i ++ v :: buf.drop (i + 1)

/-- The call `memcpy(dst, src, n)`, with `src` holding at least `n` bytes. -/
def memcpy (dst src : List Byte) (n : Nat) : List Byte :=
  src.take n ++ dst.drop n

/-- The call `memmem(hay, haylen, needle, needlelen)` of the C library: the offset of the
first occurrence of `needle` in `hay`, `none` for `NULL`. -/
def memmem (hay needle : List Byte) : Option Nat :=
  if needle.isPrefixOf hay = true then some 0
  else
    match hay with
    | [] => none
    | _ :: rest =>
      match memmem rest needle with
      | some i => some (i + 1)
      | none => none

/-- The seven bytes of the literal `webvpn=`. -/
def webvpn_literal : List Byte := [119, 101, 98, 118, 112, 110, 61]

/-- What a call `gnutls_hex2bin(hex_data, hex_size, bin_data, &bin_size)` leaves behind:
its return code, the bytes it wrote to `bin_data` and the value it left in `bin_size`. -/
structure hex2bin_result where
  ret : Int
  bin : List Byte
  bin_size : Nat
  deriving DecidableEq

/-- The library functions `header_value_cb` calls, as parameters: `atoi` applied to the
bytes found at a pointer, and `gnutls_hex2bin` applied to the `hex_size` bytes it is given
and to the capacity initially held in `bin_size`. -/
structure Libs where
  atoi : List Byte → Nat
  gnutls_hex2bin : List Byte → Nat → hex2bin_result

/-- The callback `url_cb(parser, at, length)`; `data` holds the `length` bytes at `at`. -/
def url_cb (S : buf_sizes) (req : req_data_st) (data : List Byte) : Int × req_data_st :=
  let length : Nat := data.length
  if length ≥ S.sizeof_url then
    (1, { req with url := store req.url 0 0 })
  else
    (0, { req with url := store (memcpy req.url data length) length 0 })

/-- The callback `header_value_cb(parser, at, length)`; `data` holds the `length` bytes at
`at` and `rest` the bytes that follow them in the receive buffer. The constant
`-MAX_HOSTNAME_SIZE` is an `int` converted to `size_t` for the comparison with `length`. -/
def header_value_cb (S : buf_sizes) (X : Libs) (req : req_data_st) (data rest : List Byte) :
    Int × req_data_st :=
  let length : Nat := data.length
  if length > 0 then
    match req.next_header with
    | header_t.HEADER_MASTER_SECRET =>
      if length < TLS_MASTER_SIZE * 2 then
        (0, { req with master_secret_set := 0 })
      else
        let r := X.gnutls_hex2bin (data.take (TLS_MASTER_SIZE * 2)) TLS_MASTER_SIZE
        (0, { req with master_secret := memcpy req.master_secret r.bin r.bin.length,
                       master_secret_set := 1 })
    | header_t.HEADER_HOSTNAME =>
      if length > (SIZE_RANGE - S.MAX_HOSTNAME_SIZE) % SIZE_RANGE then
        (0, { req with hostname := store req.hostname 0 0 })
      else
        (0, { req with hostname := store (memcpy req.hostname data length) length 0 })
    | header_t.HEADER_CSTP_MTU => (0, { req with cstp_mtu := X.atoi (data ++ rest) })
    | header_t.HEADER_DTLS_MTU => (0, { req with dtls_mtu := X.atoi (data ++ rest) })
    | header_t.HEADER_COOKIE =>
      match memmem data webvpn_literal with
      | none => (0, { req with cookie_set := 0 })
      | some pos =>
        if length ≤ 7 then (0, { req with cookie_set := 0 })
        else
          let p : List Byte := (data ++ rest).drop (pos + 7)
          let length1 : Nat := length - 7
          if length1 < COOKIE_SIZE * 2 then (0, { req with cookie_set := 0 })
          else
            let r := X.gnutls_hex2bin (p.take (COOKIE_SIZE * 2)) COOKIE_SIZE
            let req1 : req_data_st := { req with cookie := memcpy req.cookie r.bin r.bin.length }
            if r.bin_size < COOKIE_SIZE then (0, { req1 with cookie_set := 0 })
            else (0, { req1 with cookie_set := 1 })
    | header_t.HEADER_NONE => (0, req)
  else (0, req)

/-- The C string found in a `char` array: the bytes before the first NUL. -/
def cstr (buf : List Byte) : List Byte := buf.takeWhile (fun b => decide (b ≠ 0))

/-- A request record as `memset` leaves it: arrays of the given sizes filled with zeros. -/
def req_zero (S : buf_sizes) : req_data_st :=
  ⟨List.replicate S.sizeof_url 0, List.replicate S.MAX_HOSTNAME_SIZE 0, header_t.HEADER_NONE,
    List.replicate COOKIE_SIZE 0, 0, List.replicate TLS_MASTER_SIZE 0, 0, 0, 0⟩

/-- Sizes used in examples: a URL array of 8 bytes and a hostname array of 4 bytes. -/
def sizes_example : buf_sizes := ⟨8, 4⟩

/-- A decoder used in examples: it reports `GNUTLS_E_PARSING_ERROR` (-302), writes nothing
and leaves `bin_size` as it found it. -/
def libs_failing : Libs := ⟨fun _ => 0, fun _ cap => ⟨-302, [], cap⟩⟩

/-- The test `isxdigit` of the C library on one byte. -/
def isxdigit (b : Byte) : Bool :=
  (decide (48 ≤ b.val) && decide (b.val ≤ 57)) || (decide (97 ≤ b.val) && decide (b.val ≤ 102))
    || (decide (65 ≤ b.val) && decide (b.val ≤ 70))

/-- The zeroed request record after `header_field_cb` stored `h` in `next_header`. -/
def req_expecting (S : buf_sizes) (h : header_t) : req_data_st :=
  { req_zero S with next_header := h }

/-- A cookie value used in examples: the letter `z` followed by 63 digits `0`. -/
def cookie_hex_example : List Byte := 122 :: List.replicate 63 48

/-! ## Lemmas on the framing codec -/

theorem len_field_mod (l : Nat) :
    ((to_u8 (l >>> 8)).val <<< 8) + (to_u8 (l &&& 0xff)).val = l % 65536 := by
  have h1 : l &&& 0xff = l % 256 := Nat.and_pow_two_sub_one_eq_mod l 8
  simp only [to_u8, h1, Nat.shiftRight_eq_div_pow, Nat.shiftLeft_eq]
  omega

theorem tun_frame_eq (K : ac_pkt) (p : List Byte) :
    connect_handler_tun_frame K p =
      [83, 84, 70, 1, to_u8 (p.length >>> 8), to_u8 (p.length &&& 0xff), K.AC_PKT_DATA, 0] ++ p := by
  unfold connect_handler_tun_frame
  simp only []
  apply List.take_of_length_le
  simp

theorem parse_data_not_framing_error (K : ac_pkt) (env : Env) (ws ws0 : worker_st) (ts : Chan)
    (head : Byte) (buf : List Byte) : ¬ framing_error ws0 (parse_data K env ws ts head buf) := by
  unfold framing_error parse_data
  intro h
  split_ifs at h <;> simp at h

theorem cstp_sent_append (a b : List Effect) :
    cstp_sent (a ++ b) = cstp_sent a ++ cstp_sent b := by
  induction a with
  | nil => rfl
  | cons e es ih =>
    cases e with
    | tls_send ts data => cases ts <;> simp [cstp_sent, ih]
    | _ => simp [cstp_sent, ih]

theorem cstp_sent_mtu_not_ok (ws : worker_st) (m : Nat) :
    cstp_sent (mtu_not_ok ws m).effects = [] := by
  unfold mtu_not_ok
  simp only []
  split_ifs <;> rfl

theorem cstp_sent_mtu_ok (ws : worker_st) (sent m : Nat) :
    cstp_sent (mtu_ok ws sent m).effects = [] := by
  unfold mtu_ok
  split_ifs <;> rfl

theorem cstp_sent_tun_dtls (K : ac_pkt) (fatal : Int → Bool) (E : Int) (ws : worker_st) (m : Nat)
    (pkt : List Byte) (dtls_ret : Int) :
    cstp_sent (connect_handler_tun_dtls K fatal E ws m pkt dtls_ret).1 = [] := by
  unfold connect_handler_tun_dtls
  simp only []
  split_ifs <;>
    simp [cstp_sent_append, cstp_sent_mtu_not_ok, cstp_sent_mtu_ok, cstp_sent]

theorem cstp_sent_tun (K : ac_pkt) (fatal : Int → Bool) (E : Int) (ws : worker_st)
    (dtls_mtu tls_mtu : Nat) (rd : tun_read_result) (errno_transient : Bool)
    (dtls_ret tls_ret : Int) :
    ∀ sent ∈ cstp_sent (connect_handler_tun K fatal E ws dtls_mtu tls_mtu rd errno_transient
        dtls_ret tls_ret).effects,
      sent = connect_handler_tun_frame K
        ((tun_read_stored (tun_read_count ws dtls_mtu tls_mtu) rd).take
          (tun_read_ret (tun_read_count ws dtls_mtu tls_mtu) rd).toNat) := by
  have hd := cstp_sent_tun_dtls K fatal E ws dtls_mtu
    ((tun_read_stored (tun_read_count ws dtls_mtu tls_mtu) rd).take
      (tun_read_ret (tun_read_count ws dtls_mtu tls_mtu) rd).toNat) dtls_ret
  rcases hr : connect_handler_tun_dtls K fatal E ws dtls_mtu
    ((tun_read_stored (tun_read_count ws dtls_mtu tls_mtu) rd).take
      (tun_read_ret (tun_read_count ws dtls_mtu tls_mtu) rd).toNat) dtls_ret with ⟨e2, o⟩
  rw [hr] at hd
  simp only at hd
  cases o with
  | none =>
    simp only [connect_handler_tun, hr]
    split_ifs <;> simp [cstp_sent_append, hd, cstp_sent]
  | some t =>
    obtain ⟨ws1, m1, retry⟩ := t
    simp only [connect_handler_tun, hr]
    split_ifs <;> simp [cstp_sent_append, hd, cstp_sent]

theorem to_int_small (x : Nat) (h : x < 2147483648) : to_int x = (x : Int) := by
  have h1 : x % UINT_RANGE = x := Nat.mod_eq_of_lt (by unfold UINT_RANGE; omega)
  simp only [to_int, h1, if_pos h]

theorem to_size_t_small (x : Nat) (h : x < 2147483648) : to_size_t (x : Int) = x := by
  unfold to_size_t SIZE_RANGE
  omega

theorem connect_handler_tls_mtu_le (vinfo_mtu cstp_mtu : Nat) :
    connect_handler_tls_mtu vinfo_mtu cstp_mtu ≤ sizeof_buffer - 8 := by
  unfold connect_handler_tls_mtu MIN sizeof_buffer
  simp only []
  split_ifs <;> omega

theorem connect_handler_dtls_mtu_le (vinfo_mtu req_dtls_mtu : Nat) (af_inet : Bool)
    (st : udp_state_t) :
    connect_handler_dtls_mtu vinfo_mtu req_dtls_mtu af_inet st ≤ sizeof_buffer - 1 := by
  unfold connect_handler_dtls_mtu MIN sizeof_buffer
  simp only []
  split_ifs <;> omega

theorem mtu_step_capped (cap : Nat) (hcap : cap < 2147483648) (s : mtu_ctl) (ev : mtu_event)
    (h : s.ws.last_good_mtu ≤ cap ∧ s.ws.last_bad_mtu ≤ cap ∧ s.dtls_mtu ≤ cap) :
    (mtu_step s ev).ws.last_good_mtu ≤ cap ∧ (mtu_step s ev).ws.last_bad_mtu ≤ cap ∧
      (mtu_step s ev).dtls_mtu ≤ cap := by
  obtain ⟨h1, h2, h3⟩ := h
  cases ev with
  | not_ok =>
    simp only [mtu_step, mtu_not_ok]
    split_ifs <;> simp only [] <;> omega
  | ok sent =>
    simp only [mtu_step, mtu_ok, UINT_RANGE]
    split_ifs <;> simp only [] <;> omega

theorem mtu_run_capped (cap : Nat) (hcap : cap < 2147483648) (evs : List mtu_event) :
    ∀ s : mtu_ctl,
      (s.ws.last_good_mtu ≤ cap ∧ s.ws.last_bad_mtu ≤ cap ∧ s.dtls_mtu ≤ cap) →
      ((mtu_run s evs).ws.last_good_mtu ≤ cap ∧ (mtu_run s evs).ws.last_bad_mtu ≤ cap ∧
        (mtu_run s evs).dtls_mtu ≤ cap) := by
  induction evs with
  | nil => intro s h; exact h
  | cons ev evs ih =>
    intro s h
    exact ih (mtu_step s ev) (mtu_step_capped cap hcap s ev h)

theorem tun_read_count_capped (ws : worker_st) (dtls_mtu tls_mtu : Nat)
    (hd : dtls_mtu ≤ sizeof_buffer - 1) (ht : tls_mtu ≤ sizeof_buffer - 8) :
    tun_read_count ws dtls_mtu tls_mtu
        = (if ws.udp_state = udp_state_t.UP_ACTIVE then dtls_mtu else tls_mtu) ∧
      tun_read_count ws dtls_mtu tls_mtu ≤ 4095 := by
  unfold sizeof_buffer at hd ht
  have hlt : (if ws.udp_state = udp_state_t.UP_ACTIVE then dtls_mtu else tls_mtu) < 2147483648 := by
    split_ifs <;> omega
  have e : tun_read_count ws dtls_mtu tls_mtu
      = (if ws.udp_state = udp_state_t.UP_ACTIVE then dtls_mtu else tls_mtu) := by
    unfold tun_read_count
    rw [to_int_small _ hlt, to_size_t_small _ hlt]
  refine ⟨e, ?_⟩
  rw [e]
  split_ifs <;> omega

theorem tun_packet_capped (count : Nat) (dev : List Byte) (hc : count ≤ 4095) :
    (tun_read_stored count (tun_read_result.data dev)).take
        (tun_read_ret count (tun_read_result.data dev)).toNat = dev.take count ∧
      (dev.take count).length ≤ 4095 := by
  have hl : (dev.take count).length ≤ 4095 := by
    rw [List.length_take]; omega
  refine ⟨?_, hl⟩
  simp only [tun_read_stored, tun_read_ret]
  rw [to_int_small _ (by omega), Int.toNat_ofNat]
  exact List.take_of_length_le (le_refl _)

theorem tun_frame_well_formed_iff (K : ac_pkt) (p : List Byte) :
    cstp_well_formed (connect_handler_tun_frame K p) p.length ↔ p.length ≤ 65535 := by
  have hl := len_field_mod p.length
  rw [tun_frame_eq]
  unfold cstp_well_formed u16be
  simp [Nat.shiftLeft_eq] at hl ⊢
  omega

theorem cstp_sent_terminate (K : ac_pkt) (fatal : Int → Bool) (ws : worker_st) (dtls_mtu : Nat)
    (dtls_ret tls_ret : Int) :
    ∀ sent ∈ cstp_sent (connect_handler_terminate K fatal ws dtls_mtu dtls_ret tls_ret).effects,
      sent = [83, 84, 70, 1, 0, 0, K.AC_PKT_TERM_SERVER, 0] := by
  unfold connect_handler_terminate
  simp only []
  split_ifs <;> simp [cstp_sent_append, cstp_sent]

theorem cstp_sent_parse_data (K : ac_pkt) (env : Env) (ws : worker_st) (ts : Chan) (head : Byte)
    (buf : List Byte) :
    ∀ sent ∈ cstp_sent (parse_data K env ws ts head buf).effects,
      sent = [83, 84, 70, 1, 0, 0, 4, 0] := by
  unfold parse_data
  cases ts <;> simp only [] <;> split_ifs <;> simp [cstp_sent, dpd_resp_literal]

/-! ## Framing codec: round trip, decode contract, emitted frames -/

/-- C1, the CSTP round trip: for every payload `p` of at most 65535 bytes (the empty
payload included), the frame that the tun-send path of `connect_handler` builds around `p`
is the header `S T F 01, l>>8, l&0xff, DATA, 00` followed by `p`; `parse_cstp_data` does not
answer it with a framing error, and its result is exactly that of the packet handler
`parse_data` called on the TLS channel with type `AC_PKT_DATA` and payload `p`. -/
theorem cstp_round_trip (K : ac_pkt) (env : Env) (ws : worker_st) (p : List Byte)
    (h : p.length ≤ 65535) :
    connect_handler_tun_frame K p =
      [83, 84, 70, 1, to_u8 (p.length >>> 8), to_u8 (p.length &&& 0xff), K.AC_PKT_DATA, 0] ++ p ∧
    ¬ framing_error ws (parse_cstp_data K env ws (connect_handler_tun_frame K p)) ∧
    parse_cstp_data K env ws (connect_handler_tun_frame K p)
      = parse_data K env ws Chan.tls K.AC_PKT_DATA p := by
  have hl := len_field_mod p.length
  rw [Nat.mod_eq_of_lt (by omega)] at hl
  have hres : parse_cstp_data K env ws (connect_handler_tun_frame K p)
      = parse_data K env ws Chan.tls K.AC_PKT_DATA p := by
    rw [tun_frame_eq]
    unfold parse_cstp_data
    simp [hl]
    split_ifs <;> first | rfl | omega
  refine ⟨tun_frame_eq K p, ?_, hres⟩
  rw [hres]
  exact parse_data_not_framing_error K env ws ws Chan.tls _ _

/-- Witness of C1: the five bytes `HELLO` survive the round trip. -/
theorem cstp_round_trip_witness :
    ([72, 69, 76, 76, 79] : List Byte).length ≤ 65535 ∧
    (connect_handler_tun_frame K_example [72, 69, 76, 76, 79] =
      [83, 84, 70, 1, to_u8 (([72, 69, 76, 76, 79] : List Byte).length >>> 8),
        to_u8 (([72, 69, 76, 76, 79] : List Byte).length &&& 0xff),
        K_example.AC_PKT_DATA, 0] ++ [72, 69, 76, 76, 79] ∧
     ¬ framing_error (ws_fresh udp_state_t.UP_DISABLED)
        (parse_cstp_data K_example env_example (ws_fresh udp_state_t.UP_DISABLED)
          (connect_handler_tun_frame K_example [72, 69, 76, 76, 79])) ∧
     parse_cstp_data K_example env_example (ws_fresh udp_state_t.UP_DISABLED)
        (connect_handler_tun_frame K_example [72, 69, 76, 76, 79])
      = parse_data K_example env_example (ws_fresh udp_state_t.UP_DISABLED) Chan.tls
          K_example.AC_PKT_DATA [72, 69, 76, 76, 79]) :=
  ⟨by decide,
    cstp_round_trip K_example env_example (ws_fresh udp_state_t.UP_DISABLED)
      [72, 69, 76, 76, 79] (by decide)⟩

/-- C2, the CSTP decode contract: for every buffer, `parse_cstp_data` answers with a framing
error (-1, state untouched, the packet handler not called) if and only if the buffer is
shorter than 8 bytes, or bytes 0..3 are not `S T F 01` or byte 7 is not 0, or 8 plus the
big-endian number in bytes 4..5 differs from the buffer size; in every other case its
result is that of `parse_data` on the TLS channel with packet type byte 6 and the payload
made of bytes 8 to the end of the buffer. -/
theorem parse_cstp_data_contract (K : ac_pkt) (env : Env) (ws : worker_st) (buf : List Byte) :
    (framing_error ws (parse_cstp_data K env ws buf) ↔
      (cstp_too_short buf ∨ cstp_bad_magic buf ∨ cstp_bad_length buf)) ∧
    (¬ (cstp_too_short buf ∨ cstp_bad_magic buf ∨ cstp_bad_length buf) →
      parse_cstp_data K env ws buf
        = parse_data K env ws Chan.tls (buf.getD 6 0) (buf.drop 8)) := by
  have hu : (buf.getD 4 0).val <<< 8 + (buf.getD 5 0).val = u16be (buf.getD 4 0) (buf.getD 5 0) := by
    simp [u16be, Nat.shiftLeft_eq]
  by_cases h1 : buf.length < 8
  · have hres : parse_cstp_data K env ws buf
        = ⟨-1, ws, [Effect.oclog LogMsg.cant_read_cstp_header]⟩ := by
      simp only [parse_cstp_data, if_pos h1]
    exact ⟨⟨fun _ => Or.inl h1, fun _ => by rw [hres]; exact ⟨rfl, rfl, Or.inl rfl⟩⟩,
      fun hn => absurd (Or.inl h1) hn⟩
  · by_cases h2 : (buf.getD 0 0 ≠ 83 ∨ buf.getD 1 0 ≠ 84 ∨ buf.getD 2 0 ≠ 70 ∨ buf.getD 3 0 ≠ 1
          ∨ buf.getD 7 0 ≠ 0)
    · have hres : parse_cstp_data K env ws buf
          = ⟨-1, ws, [Effect.oclog LogMsg.cant_recognise_cstp_header]⟩ := by
        simp only [parse_cstp_data, if_neg h1, if_pos h2]
      exact ⟨⟨fun _ => Or.inr (Or.inl h2),
          fun _ => by rw [hres]; exact ⟨rfl, rfl, Or.inr (Or.inl rfl)⟩⟩,
        fun hn => absurd (Or.inr (Or.inl h2)) hn⟩
    · by_cases h3 : 8 + u16be (buf.getD 4 0) (buf.getD 5 0) ≠ buf.length
      · have h3' : buf.length ≠ 8 + ((buf.getD 4 0).val <<< 8 + (buf.getD 5 0).val) := by
          rw [hu]; exact fun e => h3 e.symm
        have hres : parse_cstp_data K env ws buf
            = ⟨-1, ws, [Effect.oclog LogMsg.unexpected_cstp_length]⟩ := by
          simp only [parse_cstp_data, if_neg h1, if_neg h2, if_pos h3']
        exact ⟨⟨fun _ => Or.inr (Or.inr h3),
            fun _ => by rw [hres]; exact ⟨rfl, rfl, Or.inr (Or.inr rfl)⟩⟩,
          fun hn => absurd (Or.inr (Or.inr h3)) hn⟩
      · have h3e : 8 + u16be (buf.getD 4 0) (buf.getD 5 0) = buf.length := not_not.mp h3
        have h3' : ¬ buf.length ≠ 8 + ((buf.getD 4 0).val <<< 8 + (buf.getD 5 0).val) := by
          rw [hu]; exact not_not.mpr h3e.symm
        have htake : (buf.drop 8).take ((buf.getD 4 0).val <<< 8 + (buf.getD 5 0).val)
            = buf.drop 8 := by
          apply List.take_of_length_le
          rw [hu, List.length_drop]; omega
        have hres : parse_cstp_data K env ws buf
            = parse_data K env ws Chan.tls (buf.getD 6 0) (buf.drop 8) := by
          simp only [parse_cstp_data, if_neg h1, if_neg h2, if_neg h3', htake]
        refine ⟨?_, fun _ => hres⟩
        rw [hres]
        constructor
        · intro hf; exact absurd hf (parse_data_not_framing_error K env ws ws Chan.tls _ _)
        · intro hc
          rcases hc with hc | hc | hc
          · exact absurd hc h1
          · exact absurd hc h2
          · exact absurd hc h3

/-- Witness of C2: the frame `STF 01 00 05 00 00 | HELLO` has none of the three defects and
is dispatched with type 0 and payload `HELLO`. -/
theorem parse_cstp_data_contract_witness :
    ¬ (cstp_too_short [83, 84, 70, 1, 0, 5, 0, 0, 72, 69, 76, 76, 79] ∨
       cstp_bad_magic [83, 84, 70, 1, 0, 5, 0, 0, 72, 69, 76, 76, 79] ∨
       cstp_bad_length [83, 84, 70, 1, 0, 5, 0, 0, 72, 69, 76, 76, 79]) ∧
    parse_cstp_data K_example env_example (ws_fresh udp_state_t.UP_DISABLED)
        [83, 84, 70, 1, 0, 5, 0, 0, 72, 69, 76, 76, 79]
      = parse_data K_example env_example (ws_fresh udp_state_t.UP_DISABLED) Chan.tls
          (([83, 84, 70, 1, 0, 5, 0, 0, 72, 69, 76, 76, 79] : List Byte).getD 6 0)
          (([83, 84, 70, 1, 0, 5, 0, 0, 72, 69, 76, 76, 79] : List Byte).drop 8) :=
  ⟨by decide,
    (parse_cstp_data_contract K_example env_example (ws_fresh udp_state_t.UP_DISABLED)
      [83, 84, 70, 1, 0, 5, 0, 0, 72, 69, 76, 76, 79]).2 (by decide)⟩

/-- C3, the frames emitted on the TLS channel: every byte string the worker hands to
`tls_send` on the TLS (CSTP) channel at the three emit sites is a well formed CSTP frame
(bytes 0..3 `S T F 01`, byte 7 zero, the big-endian number in bytes 4..5 equal to the
payload length, 8 + payload length bytes in all). For the DATA frame of the tun path the
tun device may hold a packet of any length; the payload is what `read` takes of it, with
`tls_mtu` as `connect_handler` derives it (line 617) and `dtls_mtu` within the cap
`sizeof(buffer) - 1` that `connect_handler` puts on it (line 658). The `TERM_SERVER` frame
of the shutdown path and the DPD response of `parse_data` have payload length 0. A failed
read sends nothing. -/
theorem cstp_emitted_frames_well_formed (K : ac_pkt) (fatal : Int → Bool) (E : Int) (env : Env)
    (ws : worker_st) (vinfo_mtu cstp_mtu dtls_mtu : Nat) (dev : List Byte)
    (errno_transient : Bool) (dtls_ret tls_ret : Int) (ts : Chan) (head : Byte)
    (buf : List Byte) (hdtls : dtls_mtu ≤ sizeof_buffer - 1) :
    (∀ sent ∈ cstp_sent (connect_handler_tun K fatal E ws dtls_mtu
        (connect_handler_tls_mtu vinfo_mtu cstp_mtu) (tun_read_result.data dev) errno_transient
        dtls_ret tls_ret).effects,
      cstp_well_formed sent
        (dev.take (tun_read_count ws dtls_mtu
          (connect_handler_tls_mtu vinfo_mtu cstp_mtu))).length) ∧
    cstp_sent (connect_handler_tun K fatal E ws dtls_mtu
        (connect_handler_tls_mtu vinfo_mtu cstp_mtu) tun_read_result.error errno_transient
        dtls_ret tls_ret).effects = [] ∧
    (∀ sent ∈ cstp_sent (connect_handler_terminate K fatal ws dtls_mtu dtls_ret tls_ret).effects,
      cstp_well_formed sent 0) ∧
    (∀ sent ∈ cstp_sent (parse_data K env ws ts head buf).effects,
      cstp_well_formed sent 0) := by
  have hc := tun_read_count_capped ws dtls_mtu (connect_handler_tls_mtu vinfo_mtu cstp_mtu)
    hdtls (connect_handler_tls_mtu_le vinfo_mtu cstp_mtu)
  refine ⟨?_, ?_, ?_, ?_⟩
  · intro sent hs
    have hp := tun_packet_capped _ dev hc.2
    rw [cstp_sent_tun K fatal E ws dtls_mtu _ _ errno_transient dtls_ret tls_ret sent hs, hp.1]
    exact (tun_frame_well_formed_iff K _).mpr (by have := hp.2; omega)
  · simp only [connect_handler_tun, tun_read_ret]
    split_ifs <;> simp [cstp_sent_append, cstp_sent] at *
  · intro sent hs
    rw [cstp_sent_terminate K fatal ws dtls_mtu dtls_ret tls_ret sent hs]
    simp [cstp_well_formed, u16be]
  · intro sent hs
    rw [cstp_sent_parse_data K env ws ts head buf sent hs]
    decide

/-- Witness of C3: with the MTUs negotiated for `vinfo.mtu` = 1500 (1492 and 1479) and DTLS
active, the packet `HELLO` that DTLS refuses as too large leaves on TLS in one well formed
frame of 13 bytes; so do the shutdown frame and the answer to a DPD request. -/
theorem cstp_emitted_frames_well_formed_witness :
    connect_handler_dtls_mtu 1500 0 true udp_state_t.UP_WAIT_FD ≤ sizeof_buffer - 1 ∧
    ((∀ sent ∈ cstp_sent (connect_handler_tun K_example (fun _ => false) (-7)
        ⟨udp_state_t.UP_ACTIVE, 1479, 1479, 0⟩
        (connect_handler_dtls_mtu 1500 0 true udp_state_t.UP_WAIT_FD)
        (connect_handler_tls_mtu 1500 0) (tun_read_result.data [72, 69, 76, 76, 79]) false
        (-7) 13).effects,
      cstp_well_formed sent
        (([72, 69, 76, 76, 79] : List Byte).take
          (tun_read_count ⟨udp_state_t.UP_ACTIVE, 1479, 1479, 0⟩
            (connect_handler_dtls_mtu 1500 0 true udp_state_t.UP_WAIT_FD)
            (connect_handler_tls_mtu 1500 0))).length) ∧
    cstp_sent (connect_handler_tun K_example (fun _ => false) (-7)
        ⟨udp_state_t.UP_ACTIVE, 1479, 1479, 0⟩
        (connect_handler_dtls_mtu 1500 0 true udp_state_t.UP_WAIT_FD)
        (connect_handler_tls_mtu 1500 0) tun_read_result.error false (-7) 13).effects = [] ∧
    (∀ sent ∈ cstp_sent (connect_handler_terminate K_example (fun _ => false)
        ⟨udp_state_t.UP_ACTIVE, 1479, 1479, 0⟩
        (connect_handler_dtls_mtu 1500 0 true udp_state_t.UP_WAIT_FD) (-7) 13).effects,
      cstp_well_formed sent 0) ∧
    (∀ sent ∈ cstp_sent (parse_data K_example env_example ⟨udp_state_t.UP_ACTIVE, 1479, 1479, 0⟩
        Chan.tls 3 []).effects,
      cstp_well_formed sent 0)) ∧
    cstp_sent (connect_handler_tun K_example (fun _ => false) (-7)
        ⟨udp_state_t.UP_ACTIVE, 1479, 1479, 0⟩
        (connect_handler_dtls_mtu 1500 0 true udp_state_t.UP_WAIT_FD)
        (connect_handler_tls_mtu 1500 0) (tun_read_result.data [72, 69, 76, 76, 79]) false
        (-7) 13).effects
      = [[83, 84, 70, 1, 0, 5, 0, 0, 72, 69, 76, 76, 79]] :=
  ⟨by decide,
    cstp_emitted_frames_well_formed K_example (fun _ => false) (-7) env_example
      ⟨udp_state_t.UP_ACTIVE, 1479, 1479, 0⟩ 1500 0
      (connect_handler_dtls_mtu 1500 0 true udp_state_t.UP_WAIT_FD) [72, 69, 76, 76, 79] false
      (-7) 13 Chan.tls 3 [] (by decide),
    by decide⟩

/-! ## MTU controller: ordering, range, adjustment condition -/

theorem mtu_seed_eq (max : Nat) :
    mtu_seed max = ⟨⟨udp_state_t.UP_ACTIVE, max, max, 0⟩, max, false, []⟩ := by
  unfold mtu_seed mtu_set ws_fresh
  by_cases h : max = 0
  · subst h; rfl
  · simp

theorem mtu_step_ordered (max : Nat) (hmax : max < 2147483648) (s : mtu_ctl) (ev : mtu_event)
    (h : mtu_ordered s ∧ s.ws.last_bad_mtu ≤ max) :
    mtu_ordered (mtu_step s ev) ∧ (mtu_step s ev).ws.last_bad_mtu ≤ max := by
  obtain ⟨⟨h1, h2⟩, h3⟩ := h
  cases ev with
  | not_ok =>
    simp only [mtu_step, mtu_not_ok, mtu_ordered]
    split_ifs <;> simp only [] <;> omega
  | ok sent =>
    simp only [mtu_step, mtu_ok, mtu_ordered, UINT_RANGE]
    split_ifs <;> simp only [] <;> omega

theorem mtu_run_ordered (max : Nat) (hmax : max < 2147483648) (evs : List mtu_event) :
    ∀ s : mtu_ctl, (mtu_ordered s ∧ s.ws.last_bad_mtu ≤ max) →
      mtu_ordered (mtu_run s evs) ∧ (mtu_run s evs).ws.last_bad_mtu ≤ max := by
  induction evs with
  | nil => intro s h; exact h
  | cons ev evs ih =>
    intro s h
    exact ih (mtu_step s ev) (mtu_step_ordered max hmax s ev h)

theorem mtu_step_range (initial : Nat) (hmax : initial < 2147483648) (s : mtu_ctl)
    (ev : mtu_event)
    (h : s.disabled = true ∨ (128 ≤ s.ws.last_good_mtu ∧ s.ws.last_good_mtu ≤ s.dtls_mtu ∧
       s.dtls_mtu ≤ s.ws.last_bad_mtu ∧ s.ws.last_bad_mtu ≤ initial)) :
    (mtu_step s ev).disabled = true ∨ (128 ≤ (mtu_step s ev).ws.last_good_mtu ∧
       (mtu_step s ev).ws.last_good_mtu ≤ (mtu_step s ev).dtls_mtu ∧
       (mtu_step s ev).dtls_mtu ≤ (mtu_step s ev).ws.last_bad_mtu ∧
       (mtu_step s ev).ws.last_bad_mtu ≤ initial) := by
  rcases h with h | ⟨h0, h1, h2, h3⟩
  · left
    cases ev <;> simp [mtu_step, h]
  · cases ev with
    | not_ok =>
      simp only [mtu_step, mtu_not_ok]
      split_ifs with hc
      · left; simp
      · right; simp only []; omega
    | ok sent =>
      right
      simp only [mtu_step, mtu_ok, UINT_RANGE]
      split_ifs <;> simp only [] <;> omega

theorem mtu_run_range (initial : Nat) (hmax : initial < 2147483648) (evs : List mtu_event) :
    ∀ s : mtu_ctl,
      (s.disabled = true ∨ (128 ≤ s.ws.last_good_mtu ∧ s.ws.last_good_mtu ≤ s.dtls_mtu ∧
        s.dtls_mtu ≤ s.ws.last_bad_mtu ∧ s.ws.last_bad_mtu ≤ initial)) →
      ((mtu_run s evs).disabled = true ∨ (128 ≤ (mtu_run s evs).ws.last_good_mtu ∧
        (mtu_run s evs).ws.last_good_mtu ≤ (mtu_run s evs).dtls_mtu ∧
        (mtu_run s evs).dtls_mtu ≤ (mtu_run s evs).ws.last_bad_mtu ∧
        (mtu_run s evs).ws.last_bad_mtu ≤ initial)) := by
  induction evs with
  | nil => intro s h; exact h
  | cons ev evs ih =>
    intro s h
    exact ih (mtu_step s ev) (mtu_step_range initial hmax s ev h)

/-- C4, the MTU ordering invariant: starting from a controller seeded by `mtu_set(max)`
(so `last_good_mtu` = `last_bad_mtu` = `dtls_mtu` = `max`), after every sequence of calls of
`mtu_not_ok` and `mtu_ok` on the current `dtls_mtu`, whatever the numbers of bytes sent,
`last_good_mtu ≤ dtls_mtu ≤ last_bad_mtu` holds. The seed is an MTU below 2^31: the worker
seeds the controller with its `dtls_mtu`, which `connect_handler` caps at
`sizeof(buffer) - 1` = 4095 (line 658). -/
theorem mtu_ordering_invariant (max : Nat) (evs : List mtu_event) (hmax : max < 2147483648) :
    mtu_ordered (mtu_run (mtu_seed max) evs) := by
  refine (mtu_run_ordered max hmax evs (mtu_seed max) ?_).1
  rw [mtu_seed_eq]
  simp [mtu_ordered]

/-- Witness of C4: the seed negotiated for `vinfo.mtu` = 1500 and `X-DTLS-MTU: 1400`, then
one packet too large and two full-size sends. -/
theorem mtu_ordering_invariant_witness :
    connect_handler_dtls_mtu 1500 1400 true udp_state_t.UP_WAIT_FD < 2147483648 ∧
    mtu_ordered (mtu_run (mtu_seed (connect_handler_dtls_mtu 1500 1400 true udp_state_t.UP_WAIT_FD))
      [mtu_event.not_ok, mtu_event.ok 700, mtu_event.ok 1050]) :=
  ⟨by decide,
    mtu_ordering_invariant (connect_handler_dtls_mtu 1500 1400 true udp_state_t.UP_WAIT_FD)
      [mtu_event.not_ok, mtu_event.ok 700, mtu_event.ok 1050] (by decide)⟩

/-- Counterexample to C5 as stated (any `initial_mtu`): seeded with 100, a full-size send
handled by `mtu_ok` leaves `dtls_mtu` = 100, below 128, and no `mtu_not_ok` has returned -1;
seeded with 2^31, the `unsigned` sum of `mtu_ok` wraps and leaves `dtls_mtu` = 0. -/
theorem mtu_range_counterexample :
    ((mtu_run (mtu_seed 100) [mtu_event.ok 100]).disabled = false ∧
      (mtu_run (mtu_seed 100) [mtu_event.ok 100]).dtls_mtu = 100) ∧
    ((mtu_run (mtu_seed 2147483648) [mtu_event.ok 2147483648]).disabled = false ∧
      (mtu_run (mtu_seed 2147483648) [mtu_event.ok 2147483648]).dtls_mtu = 0) := by
  decide

/-- C5 as amended, the MTU range law: for every `initial_mtu` with
128 ≤ `initial_mtu` < 2^31 and every finite sequence of `mtu_not_ok` / `mtu_ok` calls on a
controller seeded with `mtu_set(initial_mtu)` and `dtls_mtu` = `initial_mtu`, either some
`mtu_not_ok` of the sequence returned -1 or the resulting `dtls_mtu` lies in
[128, `initial_mtu`]. -/
theorem mtu_range_law (initial_mtu : Nat) (evs : List mtu_event)
    (hlo : 128 ≤ initial_mtu) (hhi : initial_mtu < 2147483648) :
    (mtu_run (mtu_seed initial_mtu) evs).disabled = true ∨
    (128 ≤ (mtu_run (mtu_seed initial_mtu) evs).dtls_mtu ∧
      (mtu_run (mtu_seed initial_mtu) evs).dtls_mtu ≤ initial_mtu) := by
  have h := mtu_run_range initial_mtu hhi evs (mtu_seed initial_mtu)
    (by rw [mtu_seed_eq]; right; simp; exact hlo)
  rcases h with h | ⟨h0, h1, h2, h3⟩
  · exact Or.inl h
  · exact Or.inr ⟨by omega, by omega⟩

/-- Witness of C5 as amended: seed 1400 and three packets too large in a row
(1400, 700, 350, 175): the last halving would give 87 and signals disable. -/
theorem mtu_range_law_witness :
    (128 ≤ 1400 ∧ 1400 < 2147483648) ∧
    ((mtu_run (mtu_seed 1400)
        [mtu_event.not_ok, mtu_event.not_ok, mtu_event.not_ok, mtu_event.not_ok]).disabled = true ∨
     (128 ≤ (mtu_run (mtu_seed 1400)
        [mtu_event.not_ok, mtu_event.not_ok, mtu_event.not_ok, mtu_event.not_ok]).dtls_mtu ∧
      (mtu_run (mtu_seed 1400)
        [mtu_event.not_ok, mtu_event.not_ok, mtu_event.not_ok, mtu_event.not_ok]).dtls_mtu
          ≤ 1400)) :=
  ⟨by decide,
    mtu_range_law 1400
      [mtu_event.not_ok, mtu_event.not_ok, mtu_event.not_ok, mtu_event.not_ok]
      (by decide) (by decide)⟩

/-- Counterexample to C6 as stated (adjust whenever `sent_bytes >= cur` or
`last_bad_mtu = cur + 1`): with `last_good_mtu` = 500, `last_bad_mtu` = 1001 and `cur` = 1000
the condition holds both for a send of 1000 bytes and for one of 600 bytes, and `mtu_ok`
leaves the MTU at 1000 (not 750) and publishes nothing; with both bounds at 2^32 - 1
the `unsigned` sum wraps, so the new MTU is 2^31 - 1 and not the half of the sum; and with
`cur` = 2^32 - 1 the `unsigned` value `cur + 1` wraps to 0, so a `last_bad_mtu` of 0 counts
as adjacent and a full-size send adjusts nothing. -/
theorem mtu_ok_adjustment_counterexample :
    ((1000 ≥ 1000 ∨ 1001 = 1000 + 1) ∧
      (mtu_ok ⟨udp_state_t.UP_ACTIVE, 500, 1001, 0⟩ 1000 1000).mtu = 1000 ∧
      (mtu_ok ⟨udp_state_t.UP_ACTIVE, 500, 1001, 0⟩ 1000 1000).mtu ≠ (500 + 1001) / 2 ∧
      (mtu_ok ⟨udp_state_t.UP_ACTIVE, 500, 1001, 0⟩ 1000 1000).effects = []) ∧
    ((600 ≥ 1000 ∨ 1001 = 1000 + 1) ∧
      (mtu_ok ⟨udp_state_t.UP_ACTIVE, 500, 1001, 0⟩ 600 1000).mtu = 1000 ∧
      (mtu_ok ⟨udp_state_t.UP_ACTIVE, 500, 1001, 0⟩ 600 1000).effects = []) ∧
    ((4294967295 ≥ 4294967295 ∨ 4294967295 = 4294967295 + 1) ∧
      (mtu_ok ⟨udp_state_t.UP_ACTIVE, 4294967295, 4294967295, 0⟩ 4294967295 4294967295).mtu
        = 2147483647 ∧
      (4294967295 + 4294967295) / 2 ≠ 2147483647) ∧
    ((4294967295 ≥ 4294967295 ∨ 0 = 4294967295 + 1) ∧
      (mtu_ok ⟨udp_state_t.UP_ACTIVE, 0, 0, 0⟩ 4294967295 4294967295).mtu = 4294967295 ∧
      (mtu_ok ⟨udp_state_t.UP_ACTIVE, 0, 0, 0⟩ 4294967295 4294967295).mtu ≠ (0 + 0) / 2 ∧
      (mtu_ok ⟨udp_state_t.UP_ACTIVE, 0, 0, 0⟩ 4294967295 4294967295).effects = []) := by
  decide

/-- C6 as amended, the adjustment condition of `mtu_ok`: for every controller state and
every (`sent`, `cur`) whose `unsigned` expressions do not wrap (`last_good_mtu` +
`last_bad_mtu` and `cur` + 1 below 2^32), `mtu_ok` leaves state and DTLS MTU unchanged and
publishes nothing unless `sent ≥ cur` and `last_bad_mtu ≠ cur + 1`; whenever both hold it
sets the DTLS MTU to `(last_good_mtu + last_bad_mtu) / 2`, hands that value to
`gnutls_dtls_set_data_mtu` and publishes it with `send_tun_mtu`. -/
theorem mtu_ok_adjustment (ws : worker_st) (sent cur : Nat)
    (hsum : ws.last_good_mtu + ws.last_bad_mtu < UINT_RANGE) (hcur : cur + 1 < UINT_RANGE) :
    (sent ≥ cur ∧ ws.last_bad_mtu ≠ cur + 1 →
      mtu_ok ws sent cur = ⟨ws, (ws.last_good_mtu + ws.last_bad_mtu) / 2,
        [Effect.gnutls_dtls_set_data_mtu ((ws.last_good_mtu + ws.last_bad_mtu) / 2),
         Effect.send_tun_mtu ((ws.last_good_mtu + ws.last_bad_mtu) / 2)]⟩) ∧
    (¬ (sent ≥ cur ∧ ws.last_bad_mtu ≠ cur + 1) → mtu_ok ws sent cur = ⟨ws, cur, []⟩) := by
  have e1 : (cur + 1) % UINT_RANGE = cur + 1 := Nat.mod_eq_of_lt hcur
  have e2 : (ws.last_good_mtu + ws.last_bad_mtu) % UINT_RANGE
      = ws.last_good_mtu + ws.last_bad_mtu := Nat.mod_eq_of_lt hsum
  constructor
  · rintro ⟨h1, h2⟩
    have hc : ¬ (sent < cur ∨ ws.last_bad_mtu = (cur + 1) % UINT_RANGE) := by
      rw [e1]; rintro (h | h)
      · omega
      · exact h2 h
    simp only [mtu_ok, if_neg hc, e2]
  · intro hn
    have hc : sent < cur ∨ ws.last_bad_mtu = (cur + 1) % UINT_RANGE := by
      rw [e1]
      by_cases hs : sent < cur
      · exact Or.inl hs
      · right
        by_contra hb
        exact hn ⟨by omega, hb⟩
    simp only [mtu_ok, if_pos hc]

/-- Witness of C6 as amended: between the bounds 700 and 1400 a full-size send at
`cur` = 700 moves the MTU to 1050 and publishes 1050. -/
theorem mtu_ok_adjustment_witness :
    (700 + 1400 < UINT_RANGE ∧ 700 + 1 < UINT_RANGE ∧ (700 ≥ 700 ∧ 1400 ≠ 700 + 1)) ∧
    mtu_ok ⟨udp_state_t.UP_ACTIVE, 700, 1400, 0⟩ 700 700
      = ⟨⟨udp_state_t.UP_ACTIVE, 700, 1400, 0⟩, 1050,
          [Effect.gnutls_dtls_set_data_mtu 1050, Effect.send_tun_mtu 1050]⟩ :=
  ⟨by decide,
    (mtu_ok_adjustment ⟨udp_state_t.UP_ACTIVE, 700, 1400, 0⟩ 700 700
      (by decide) (by decide)).1 (by decide)⟩

/-! ## Published tun MTU and TLS MTU derivation -/

/-- C7, evaluated at the failing input: with `vinfo.mtu` = 1500 over IPv4 and a client
advertising `X-CSTP-MTU: 500` and `X-DTLS-MTU: 1400`, `connect_handler` settles on
`tls_mtu` = 500 and `dtls_mtu` = 1400 and publishes their minimum 500; the controller then
publishes the bare DTLS values, 700 after `mtu_not_ok` and 1050 after `mtu_ok`, although
the minimum with `tls_mtu` is still 500. -/
theorem tun_mtu_published_above_tls_mtu :
    (connect_handler_mtu 1500 500 1400 true udp_state_t.UP_WAIT_FD).tls_mtu = 500 ∧
    (connect_handler_mtu 1500 500 1400 true udp_state_t.UP_WAIT_FD).dtls_mtu = 1400 ∧
    published_mtus (connect_handler_mtu 1500 500 1400 true udp_state_t.UP_WAIT_FD).effects
      = [500] ∧
    (mtu_run (mtu_seed 1400) [mtu_event.not_ok]).dtls_mtu = 700 ∧
    (mtu_run (mtu_seed 1400) [mtu_event.not_ok]).published = [700] ∧
    (mtu_run (mtu_seed 1400) [mtu_event.not_ok, mtu_event.ok 700]).dtls_mtu = 1050 ∧
    (mtu_run (mtu_seed 1400) [mtu_event.not_ok, mtu_event.ok 700]).published = [700, 1050] ∧
    MIN 700 500 = 500 ∧ MIN 1050 500 = 500 := by
  decide

/-- Counterexample to C8 as stated (any `vinfo.mtu`): for `vinfo.mtu` = 0 and no client
value the `unsigned` difference `vinfo.mtu - 8` wraps, and `connect_handler` advertises
4088, which is not `min(0 - 8, 4096 - 8)`. -/
theorem tls_mtu_counterexample :
    connect_handler_tls_mtu 0 0 = 4088 ∧
    (connect_handler_tls_mtu 0 0 : Int) ≠ tls_mtu_spec 0 0 := by
  decide

/-- C8 as amended, the TLS MTU derivation: for every `vinfo.mtu` with
8 ≤ `vinfo.mtu` < 2^32 and every client-advertised `cstp_mtu`, `connect_handler` advertises
in `X-CSTP-MTU` exactly one value, its `tls_mtu`, and that value is
`min(vinfo.mtu - 8, 4096 - 8, cstp_mtu)` when `cstp_mtu > 0` and
`min(vinfo.mtu - 8, 4096 - 8)` otherwise. -/
theorem tls_mtu_derivation (vinfo_mtu cstp_mtu req_dtls_mtu : Nat) (af_inet : Bool)
    (st : udp_state_t) (hlo : 8 ≤ vinfo_mtu) (hhi : vinfo_mtu < UINT_RANGE) :
    advertised_cstp_mtu (connect_handler_mtu vinfo_mtu cstp_mtu req_dtls_mtu af_inet st).effects
      = [connect_handler_tls_mtu vinfo_mtu cstp_mtu] ∧
    (connect_handler_tls_mtu vinfo_mtu cstp_mtu : Int) = tls_mtu_spec vinfo_mtu cstp_mtu := by
  constructor
  · unfold connect_handler_mtu
    simp only []
    split_ifs <;> simp [advertised_cstp_mtu]
  · have e : (vinfo_mtu + UINT_RANGE - 8) % UINT_RANGE = vinfo_mtu - 8 := by
      unfold UINT_RANGE at *
      omega
    unfold connect_handler_tls_mtu tls_mtu_spec
    simp only [e, MIN, sizeof_buffer]
    split_ifs <;> simp [min_def] <;> split_ifs <;> omega

/-- Witness of C8 as amended: `vinfo.mtu` = 1500 and no client value give 1492. -/
theorem tls_mtu_derivation_witness :
    (8 ≤ 1500 ∧ 1500 < UINT_RANGE) ∧
    connect_handler_tls_mtu 1500 0 = 1492 ∧
    (advertised_cstp_mtu
        (connect_handler_mtu 1500 0 0 true udp_state_t.UP_DISABLED).effects
      = [connect_handler_tls_mtu 1500 0] ∧
     (connect_handler_tls_mtu 1500 0 : Int) = tls_mtu_spec 1500 0) :=
  ⟨by decide, by decide,
    tls_mtu_derivation 1500 0 0 true udp_state_t.UP_DISABLED (by decide) (by decide)⟩

/-! ## HTTP phase: request budget and keep-alive rule -/

theorem vpn_server_restart_budget (reqs : List http_request) :
    ∀ rl : Int,
      ((vpn_server_restart rl reqs).passes : Int) ≤ max rl 0 ∧
      (vpn_server_restart rl reqs).served ≤ (vpn_server_restart rl reqs).passes ∧
      (vpn_server_restart rl reqs).counters.head? = some (rl - 1) ∧
      List.Chain' (fun a b : Int => b = a - 1) (vpn_server_restart rl reqs).counters ∧
      ((vpn_server_restart rl reqs).ending = http_end.budget_exhausted →
        ((vpn_server_restart rl reqs).passes : Int) = max rl 0 ∧
        (vpn_server_restart rl reqs).served = (vpn_server_restart rl reqs).passes) := by
  induction reqs with
  | nil =>
    intro rl
    unfold vpn_server_restart
    split_ifs with h
    · simp; omega
    · simp; omega
  | cons r rest ih =>
    intro rl
    unfold vpn_server_restart
    split_ifs with h
    · simp; omega
    · obtain ⟨i1, i2, i3, i4, i5⟩ := ih (rl - 1)
      rcases hr : vpn_server_request r with ⟨nx, e⟩
      cases nx with
      | goto_restart =>
        simp only []
        refine ⟨?_, ?_, rfl, ?_, ?_⟩
        · push_cast; omega
        · omega
        · apply List.Chain'.cons' i4
          intro y hy
          rw [i3] at hy
          simp at hy
          omega
        · intro he
          obtain ⟨j1, j2⟩ := i5 he
          constructor
          · push_cast; omega
          · omega
      | goto_finish => simp; omega
      | exit_process => simp; omega

/-- C9, the request budget: on one connection, whatever requests the client sends and
whatever the handlers return, the HTTP phase of `vpn_server` gets past the budget check at
`restart:` at most `MAX_HTTP_REQUESTS` = 8 times and reads no more requests than that; the
values of `requests_left` after the successive checks start at 7 and each is one less than
the one before; and when the phase ends on the exhausted budget, exactly 8 checks were
passed and exactly 8 requests read, none after the failed check. -/
theorem request_budget (reqs : List http_request) :
    (vpn_server reqs).passes ≤ 8 ∧
    (vpn_server reqs).served ≤ (vpn_server reqs).passes ∧
    (vpn_server reqs).counters.head? = some 7 ∧
    List.Chain' (fun a b : Int => b = a - 1) (vpn_server reqs).counters ∧
    ((vpn_server reqs).ending = http_end.budget_exhausted →
      (vpn_server reqs).passes = 8 ∧ (vpn_server reqs).served = 8) := by
  obtain ⟨h1, h2, h3, h4, h5⟩ := vpn_server_restart_budget reqs MAX_HTTP_REQUESTS
  unfold vpn_server
  unfold MAX_HTTP_REQUESTS at *
  refine ⟨by omega, h2, h3, h4, ?_⟩
  intro he
  obtain ⟨j1, j2⟩ := h5 he
  omega

/-- Witness of C9: a client sending ten keep-alive requests is served eight times and
then meets the exhausted budget. -/
theorem request_budget_witness :
    (vpn_server (List.replicate 10 keep_alive_get)).ending = http_end.budget_exhausted ∧
    ((vpn_server (List.replicate 10 keep_alive_get)).passes = 8 ∧
      (vpn_server (List.replicate 10 keep_alive_get)).served = 8) :=
  ⟨by decide, (request_budget (List.replicate 10 keep_alive_get)).2.2.2.2 (by decide)⟩

/-- Counterexample to C10 as stated (re-enter only for HTTP/1.1): a dispatched
`GET / HTTP/2.0` whose handler returns 0 sends `vpn_server` back to `restart:` although
the request version is not 1.1. -/
theorem keep_alive_counterexample :
    dispatched http2_get 0 ∧
    (vpn_server_request http2_get).1 = http_next.goto_restart ∧
    ¬ (http2_get.http_major = 1 ∧ http2_get.http_minor = 1) := by
  decide

/-- C10 as amended, the HTTP keep-alive rule: for every dispatched GET, POST or CONNECT
request with parsed version (`http_major`, `http_minor`) and handler return code `ret`,
`vpn_server` goes back to `restart:` if and only if `ret` = 0 and the request version is
not HTTP/1.0. -/
theorem keep_alive_rule (r : http_request) (ret : Int) (h : dispatched r ret) :
    (vpn_server_request r).1 = http_next.goto_restart ↔
      (ret = 0 ∧ ¬ (r.http_major = 1 ∧ r.http_minor = 0)) := by
  obtain ⟨h1, h2, h3⟩ := h
  have ha : (after_handler r).1 = http_next.goto_restart ↔
      (ret = 0 ∧ ¬ (r.http_major = 1 ∧ r.http_minor = 0)) := by
    simp only [after_handler, h2, keep_alive]
    split_ifs with hk
    · simp at hk
      simp
      constructor
      · exact hk.1
      · intro hm; cases hk.2 with
        | inl h => exact absurd hm h
        | inr h => exact h
    · simp at hk
      simp
      exact hk
  rcases h3 with ⟨hm, hu⟩ | ⟨hm, hb, hu⟩ | hm
  · cases hg : get_url_handler r.url with
    | none => exact absurd hg hu
    | some f => simp only [vpn_server_request, h1, hm, hg]; exact ha
  · cases hg : post_url_handler r.url with
    | none => exact absurd hg hu
    | some f => simp only [vpn_server_request, h1, hm, hb, hg]; exact ha
  · simp only [vpn_server_request, h1, hm]; exact ha

/-- Witness of C10 as amended: `GET / HTTP/1.1` with a handler returning 0 is dispatched,
and the rule applies to it. -/
theorem keep_alive_rule_witness :
    dispatched keep_alive_get 0 ∧
    ((vpn_server_request keep_alive_get).1 = http_next.goto_restart ↔
      ((0 : Int) = 0 ∧ ¬ (keep_alive_get.http_major = 1 ∧ keep_alive_get.http_minor = 0))) :=
  ⟨by decide, keep_alive_rule keep_alive_get 0 (by decide)⟩

/-! ## HTTP parser callbacks: URL bound, hostname copy, cookie validation -/

theorem store_length (buf : List Byte) (i : Nat) (v : Byte) (h : i < buf.length) :
    (store buf i v).length = buf.length := by
  unfold store
  simp [List.length_append, List.length_take, List.length_drop]
  omega

theorem store_memcpy (dst data : List Byte) :
    store (memcpy dst data data.length) data.length 0 = data ++ 0 :: dst.drop (data.length + 1) := by
  unfold store memcpy
  simp [List.take_append_eq_append_take, List.drop_append_eq_append_drop]

theorem store_zero_cstr (buf : List Byte) : cstr (store buf 0 0) = [] := by
  simp [cstr, store]

theorem memmem_self_append (needle tail : List Byte) : memmem (needle ++ tail) needle = some 0 := by
  unfold memmem
  have h : needle.isPrefixOf (needle ++ tail) = true := by
    rw [List.isPrefixOf_iff_prefix]
    exact List.prefix_append needle tail
  cases hx : needle ++ tail <;> simp [hx] at h ⊢ <;> simp [h]

/-- C11, the URL bound: let `L` = `sizeof(req->url)`, the record holding an array of `L`
bytes, `L` positive. For every URL of `n` bytes handed to `url_cb`: if `n ≥ L` (in
particular `n = L`) the callback returns non-zero and the stored URL is the empty string;
if `n ≤ L - 1` it returns 0 and the array starts with exactly the `n` input bytes followed
by a NUL. In both cases the array keeps its `L` bytes. -/
theorem url_cb_bound (S : buf_sizes) (req : req_data_st) (data : List Byte)
    (hL : 0 < S.sizeof_url) (hlen : req.url.length = S.sizeof_url) :
    (data.length ≥ S.sizeof_url →
      (url_cb S req data).1 ≠ 0 ∧ cstr (url_cb S req data).2.url = [] ∧
      (url_cb S req data).2.url.length = S.sizeof_url) ∧
    (data.length ≤ S.sizeof_url - 1 →
      (url_cb S req data).1 = 0 ∧
      (url_cb S req data).2.url.take (data.length + 1) = data ++ [0] ∧
      (url_cb S req data).2.url.length = S.sizeof_url) := by
  constructor
  · intro h
    simp only [url_cb, if_pos h]
    refine ⟨by decide, store_zero_cstr _, ?_⟩
    rw [store_length _ _ _ (by omega), hlen]
  · intro h
    have h' : ¬ data.length ≥ S.sizeof_url := by omega
    simp only [url_cb, if_neg h']
    refine ⟨trivial, ?_, ?_⟩
    · rw [store_memcpy]
      simp [List.take_append_eq_append_take]
    · rw [store_memcpy]
      simp [List.length_append, List.length_drop]
      omega

/-- Witness of C11: with an array of 8 bytes a URL of 8 bytes is rejected and one of 7
bytes is stored with its terminator. -/
theorem url_cb_bound_witness :
    (0 < sizes_example.sizeof_url ∧
      (req_zero sizes_example).url.length = sizes_example.sizeof_url) ∧
    (([47, 97, 98, 99, 100, 101, 102, 103] : List Byte).length ≥ sizes_example.sizeof_url ∧
      ((url_cb sizes_example (req_zero sizes_example) [47, 97, 98, 99, 100, 101, 102, 103]).1 ≠ 0 ∧
       cstr (url_cb sizes_example (req_zero sizes_example)
          [47, 97, 98, 99, 100, 101, 102, 103]).2.url = [] ∧
       (url_cb sizes_example (req_zero sizes_example)
          [47, 97, 98, 99, 100, 101, 102, 103]).2.url.length = sizes_example.sizeof_url)) ∧
    (([47, 97, 98, 99, 100, 101, 102] : List Byte).length ≤ sizes_example.sizeof_url - 1 ∧
      ((url_cb sizes_example (req_zero sizes_example) [47, 97, 98, 99, 100, 101, 102]).1 = 0 ∧
       (url_cb sizes_example (req_zero sizes_example) [47, 97, 98, 99, 100, 101, 102]).2.url.take
          (([47, 97, 98, 99, 100, 101, 102] : List Byte).length + 1)
         = [47, 97, 98, 99, 100, 101, 102] ++ [0] ∧
       (url_cb sizes_example (req_zero sizes_example)
          [47, 97, 98, 99, 100, 101, 102]).2.url.length = sizes_example.sizeof_url)) :=
  ⟨by decide,
    ⟨by decide,
      (url_cb_bound sizes_example (req_zero sizes_example) [47, 97, 98, 99, 100, 101, 102, 103]
        (by decide) (by decide)).1 (by decide)⟩,
    ⟨by decide,
      (url_cb_bound sizes_example (req_zero sizes_example) [47, 97, 98, 99, 100, 101, 102]
        (by decide) (by decide)).2 (by decide)⟩⟩

/-- C12, evaluated on the code: the guard of the hostname case compares `length` with
`-MAX_HOSTNAME_SIZE` converted to `size_t`, that is with 2^64 - `MAX_HOSTNAME_SIZE`. So for
every non-empty `X-CSTP-Hostname` value of `n` bytes with `n` + `MAX_HOSTNAME_SIZE` ≤ 2^64,
whatever `n` is against `MAX_HOSTNAME_SIZE`, `header_value_cb` copies all `n` bytes to the
start of `req->hostname` and stores the NUL at index `n`; nothing is refused. -/
theorem hostname_copied_without_bound (S : buf_sizes) (X : Libs) (req : req_data_st) (data rest : List Byte)
    (hh : req.next_header = header_t.HEADER_HOSTNAME) (hn : 0 < data.length)
    (hM : 0 < S.MAX_HOSTNAME_SIZE) (hfit : data.length + S.MAX_HOSTNAME_SIZE ≤ SIZE_RANGE) :
    (header_value_cb S X req data rest).2.hostname
      = data ++ 0 :: req.hostname.drop (data.length + 1) := by
  have e : (SIZE_RANGE - S.MAX_HOSTNAME_SIZE) % SIZE_RANGE = SIZE_RANGE - S.MAX_HOSTNAME_SIZE :=
    Nat.mod_eq_of_lt (by unfold SIZE_RANGE at *; omega)
  have hg : ¬ data.length > (SIZE_RANGE - S.MAX_HOSTNAME_SIZE) % SIZE_RANGE := by
    rw [e]; omega
  simp only [header_value_cb, hh, if_pos hn, if_neg hg]
  exact store_memcpy _ _

/-- Witness of C12 at the failing input: with `MAX_HOSTNAME_SIZE` = 4 the value `abcd` of
4 bytes is not refused; its 4 bytes and the NUL, 5 bytes, are stored in the array of 4. -/
theorem hostname_copied_without_bound_witness :
    ((req_expecting sizes_example header_t.HEADER_HOSTNAME).next_header
        = header_t.HEADER_HOSTNAME ∧
      0 < ([97, 98, 99, 100] : List Byte).length ∧ 0 < sizes_example.MAX_HOSTNAME_SIZE ∧
      ([97, 98, 99, 100] : List Byte).length + sizes_example.MAX_HOSTNAME_SIZE ≤ SIZE_RANGE) ∧
    (header_value_cb sizes_example libs_failing
        (req_expecting sizes_example header_t.HEADER_HOSTNAME) [97, 98, 99, 100] []).2.hostname
      = [97, 98, 99, 100] ++
          0 :: (req_expecting sizes_example header_t.HEADER_HOSTNAME).hostname.drop
            (([97, 98, 99, 100] : List Byte).length + 1) ∧
    ([97, 98, 99, 100] : List Byte).length ≥ sizes_example.MAX_HOSTNAME_SIZE ∧
    (header_value_cb sizes_example libs_failing
        (req_expecting sizes_example header_t.HEADER_HOSTNAME) [97, 98, 99, 100] []).2.hostname
      = [97, 98, 99, 100, 0] ∧
    cstr (header_value_cb sizes_example libs_failing
        (req_expecting sizes_example header_t.HEADER_HOSTNAME) [97, 98, 99, 100] []).2.hostname
      ≠ [] :=
  ⟨by decide,
    hostname_copied_without_bound sizes_example libs_failing
      (req_expecting sizes_example header_t.HEADER_HOSTNAME) [97, 98, 99, 100] []
      (by decide) (by decide) (by decide) (by decide),
    by decide, by decide, by decide⟩

/-- C13, evaluated on the code: for every `Cookie` value made of `webvpn=` followed by
exactly 2 * `COOKIE_SIZE` characters, `header_value_cb` sets `cookie_set` to 0 when
`gnutls_hex2bin` left less than `COOKIE_SIZE` in `nlen` and to 1 otherwise; the return code
of `gnutls_hex2bin` is not read. A decoder that reports a failure on characters that are not
hexadecimal digits and leaves `nlen` at `sizeof(req->cookie)` therefore gives
`cookie_set` = 1. -/
theorem cookie_set_ignores_decoder_result (S : buf_sizes) (X : Libs) (req : req_data_st) (hex rest : List Byte)
    (hh : req.next_header = header_t.HEADER_COOKIE) (hlen : hex.length = 2 * COOKIE_SIZE) :
    (header_value_cb S X req (webvpn_literal ++ hex) rest).2.cookie_set
      = if (X.gnutls_hex2bin hex COOKIE_SIZE).bin_size < COOKIE_SIZE then 0 else 1 := by
  have hl : (webvpn_literal ++ hex).length = 7 + hex.length := by
    simp [webvpn_literal]; omega
  have hn : (webvpn_literal ++ hex).length > 0 := by omega
  have h7 : ¬ (webvpn_literal ++ hex).length ≤ 7 := by
    rw [hl, hlen]; unfold COOKIE_SIZE; omega
  have h64 : ¬ (webvpn_literal ++ hex).length - 7 < COOKIE_SIZE * 2 := by
    rw [hl, hlen]; unfold COOKIE_SIZE; omega
  have hp : ((webvpn_literal ++ hex ++ rest).drop (0 + 7)).take (COOKIE_SIZE * 2) = hex := by
    have : (webvpn_literal ++ hex ++ rest).drop (0 + 7) = hex ++ rest := by
      simp [webvpn_literal]
    rw [this]
    rw [List.take_append_eq_append_take]
    have h2 : COOKIE_SIZE * 2 - hex.length = 0 := by rw [hlen]; unfold COOKIE_SIZE; omega
    rw [h2, List.take_of_length_le (by rw [hlen]; unfold COOKIE_SIZE; omega)]
    simp
  simp only [header_value_cb, hh, if_pos hn, memmem_self_append, if_neg h7, if_neg h64, hp]
  split_ifs <;> rfl

/-- Witness of C13 at the failing input: the value `webvpn=z000...0` has 64 characters after
`webvpn=`, not all of them hexadecimal digits; the decoder reports a failure and leaves
`nlen` at 32, and the request ends with `cookie_set` = 1. -/
theorem cookie_set_ignores_decoder_result_witness :
    ((req_expecting sizes_example header_t.HEADER_COOKIE).next_header = header_t.HEADER_COOKIE ∧
      cookie_hex_example.length = 2 * COOKIE_SIZE) ∧
    (header_value_cb sizes_example libs_failing
        (req_expecting sizes_example header_t.HEADER_COOKIE)
        (webvpn_literal ++ cookie_hex_example) []).2.cookie_set
      = (if (libs_failing.gnutls_hex2bin cookie_hex_example COOKIE_SIZE).bin_size < COOKIE_SIZE
          then 0 else 1) ∧
    cookie_hex_example.all isxdigit = false ∧
    (libs_failing.gnutls_hex2bin cookie_hex_example COOKIE_SIZE).ret < 0 ∧
    (header_value_cb sizes_example libs_failing
        (req_expecting sizes_example header_t.HEADER_COOKIE)
        (webvpn_literal ++ cookie_hex_example) []).2.cookie_set = 1 :=
  ⟨by decide,
    cookie_set_ignores_decoder_result sizes_example libs_failing
      (req_expecting sizes_example header_t.HEADER_COOKIE) cookie_hex_example []
      (by decide) (by decide),
    by decide, by decide, by decide⟩

/-! ## Tun read and the frame buffer -/

/-- C14, evaluated on the code: on the TLS side the length asked from the tun device always
fits, 8 + `tls_mtu` ≤ 4096 for every `vinfo.mtu` and client value. On the DTLS side it
does not: with `vinfo.mtu` = 9000 over IPv4 and no client value, `connect_handler` caps
`dtls_mtu` at `sizeof(buffer) - 1` = 4095 and `mtu_set` seeds both bounds with it; once DTLS
is active at a data MTU of 4040, a full-size send makes `mtu_ok` raise `dtls_mtu` to 4095,
and the next read asks the tun device for 4095 bytes at offset 8 of the 4096 byte buffer. -/
theorem tun_read_overruns_buffer :
    (∀ vinfo_mtu cstp_mtu : Nat,
      8 + connect_handler_tls_mtu vinfo_mtu cstp_mtu ≤ sizeof_buffer) ∧
    (connect_handler_mtu 9000 0 0 true udp_state_t.UP_WAIT_FD).tls_mtu = 4088 ∧
    (connect_handler_mtu 9000 0 0 true udp_state_t.UP_WAIT_FD).dtls_mtu = 4095 ∧
    mtu_set (ws_fresh udp_state_t.UP_SETUP) 4095 = ⟨udp_state_t.UP_SETUP, 4095, 4095, 0⟩ ∧
    (mtu_ok ⟨udp_state_t.UP_ACTIVE, 4095, 4095, 0⟩ 4040 4040).mtu = 4095 ∧
    (connect_handler_tun K_example (fun _ => false) (-7) ⟨udp_state_t.UP_ACTIVE, 4095, 4095, 0⟩
        4095 4088 tun_read_result.error true 0 0).effects = [Effect.tun_read 4095] ∧
    ¬ (8 + 4095 ≤ sizeof_buffer) := by
  refine ⟨?_, by decide, by decide, by decide, by decide, by decide, by decide⟩
  intro vinfo_mtu cstp_mtu
  unfold connect_handler_tls_mtu MIN sizeof_buffer
  simp only []
  split_ifs <;> omega

end Ocserv
